import Mathlib

/-!
# PACIFIC lesson-generation backend: a shallow embedding with proofs

This file embeds the core of the PACIFIC backend (files
`coreStructure.py`, `integrationLayer.py`, `dynamodbCache.py` of the
`pacific-generate-lesson` lambda) into Lean and proves or refutes the
frozen claims about it.

Modelling conventions, used throughout:

* Python values are modelled by the mutual inductive `Py` / `PyList` /
  `PyDict` (JSON-serialisable fragment: `None`, `bool`, `int`, `str`,
  `list`, `dict` with string keys).  Python dicts preserve insertion
  order and have unique keys; `PyDict` is an insertion-ordered
  association list and the update operation `PyDict.set` replaces an
  existing binding in place, else appends.
* Fallible Python code is embedded in `Except PyErr`; a `try/except`
  block becomes a `match` on the `Except` value.  `dict.get` on a
  non-dict raises `AttributeError`, an unbound local name raises
  `NameError`, etc.
* Timestamps, which the source stores as ISO-8601 UTC strings
  (`datetime.utcnow().isoformat()`), are modelled as decimal integer
  strings counting seconds; `datetime.fromisoformat` becomes decimal
  parsing (raising on a malformed string, exactly as the source's
  `except` path expects), `datetime.utcnow()` becomes an integer
  parameter `now`, `timedelta(hours=24)` is 86400 and
  `timedelta(days=7)` is 604800 seconds.
* `json.dumps(x, sort_keys=True)` is modelled as serialisation of the
  recursively key-sorted value (`canonPy`), with Python's separators
  `", "` and `": "`; string escaping covers the JSON escapes and the
  `ensure_ascii` `\uXXXX` form (with surrogate pairs above the BMP).
* `hashlib.sha256(...).hexdigest()[:16]` is implemented for real
  (`sha256hex16`) over the UTF-8 bytes of the serialised key, as FIPS
  180-4 arithmetic on `Nat` reduced mod 2^32.
* Python's `round` is banker's rounding; on the inputs reachable in
  `calculate_priority_time_allocation` the value being rounded is
  `v*100/total` with `total ≤ 115`, which is never an exact half and
  is farther than 1/230 from every half, so binary floating point
  cannot shift the result: exact rational rounding-half-to-even
  (`roundHalfEven`) coincides with the source's `round(v / total * 100)`
  on every reachable input.
* The AWS collaborators are modelled as explicit state: the DynamoDB
  table is a `CacheStore` association list threaded through the
  functions, store availability is a boolean (a `ClientError` on
  `put_item` is the unavailable case), and the Bedrock generation
  service (`generate_lesson_with_ai`, an external collaborator per
  spec section 1) is an uninterpreted function field of `World`.
-/

mutual

/-- Python values (the JSON-serialisable fragment used by the code). -/
inductive Py where
  | none
  | bool (b : Bool)
  | int (n : Int)
  | str (s : String)
  | list (xs : PyList)
  | dict (kvs : PyDict)

inductive PyList where
  | nil
  | cons (hd : Py) (tl : PyList)

inductive PyDict where
  | nil
  | cons (k : String) (v : Py) (tl : PyDict)

end

def PyList.ofList : List Py → PyList
  | [] => .nil
  | x :: xs => .cons x (PyList.ofList xs)

def PyList.toList : PyList → List Py
  | .nil => []
  | .cons x xs => x :: xs.toList

def PyDict.ofList : List (String × Py) → PyDict
  | [] => .nil
  | (k, v) :: kvs => .cons k v (PyDict.ofList kvs)

def PyDict.toList : PyDict → List (String × Py)
  | .nil => []
  | .cons k v kvs => (k, v) :: kvs.toList

/-- A Python list literal. -/
def Py.listOf (xs : List Py) : Py := .list (PyList.ofList xs)

/-- A Python dict literal (insertion order = the given order). -/
def Py.dictOf (kvs : List (String × Py)) : Py := .dict (PyDict.ofList kvs)

/-- A Python list of strings. -/
def Py.strs (xs : List String) : Py := Py.listOf (xs.map Py.str)

def PyList.length : PyList → Nat
  | .nil => 0
  | .cons _ xs => 1 + xs.length

def PyDict.length : PyDict → Nat
  | .nil => 0
  | .cons _ _ kvs => 1 + kvs.length

/-- First binding of a key in a dict (Python dicts have unique keys). -/
def PyDict.lookup : PyDict → String → Option Py
  | .nil, _ => Option.none
  | .cons k v kvs, key => if k = key then some v else kvs.lookup key

/-- `d.get(key, dflt)` on a value already known to be a dict. -/
def PyDict.getD (kvs : PyDict) (key : String) (dflt : Py) : Py :=
  (kvs.lookup key).getD dflt

/-- `key in d` on a dict. -/
def PyDict.hasKey (kvs : PyDict) (key : String) : Bool :=
  (kvs.lookup key).isSome

/-- `d[key] = v`: replace the existing binding in place, else append. -/
def PyDict.set : PyDict → String → Py → PyDict
  | .nil, key, v => .cons key v .nil
  | .cons k w kvs, key, v =>
    if k = key then .cons k v kvs else .cons k w (kvs.set key v)

def PyDict.keys : PyDict → List String
  | .nil => []
  | .cons k _ kvs => k :: kvs.keys

/-- Python truthiness of the modelled values. -/
def Py.truthy : Py → Bool
  | .none => false
  | .bool b => b
  | .int n => n != 0
  | .str s => s ≠ ""
  | .list .nil => false
  | .list (.cons _ _) => true
  | .dict .nil => false
  | .dict (.cons _ _ _) => true

/-- Exception kinds raised by the embedded code. -/
inductive PyErr where
  | attributeError
  | typeError
  | valueError
  | keyError
  | nameError (n : String)
deriving DecidableEq

/-- `str(e)` for the top-level handler's error message.  Only the
`NameError` text is rendered in full; the other messages are
abbreviated (no claim inspects them). -/
def pyErrStr : PyErr → String
  | .attributeError => "AttributeError"
  | .typeError => "TypeError"
  | .valueError => "ValueError"
  | .keyError => "KeyError"
  | .nameError n => "name \x27" ++ n ++ "\x27 is not defined"

/-- `x.get(key, dflt)`: `AttributeError` when `x` is not a dict. -/
def pyGetE (x : Py) (key : String) (dflt : Py) : Except PyErr Py :=
  match x with
  | .dict kvs => .ok (kvs.getD key dflt)
  | _ => .error .attributeError

/-- `len(x)` (defined on str, list and dict; `TypeError` otherwise). -/
def pyLenE : Py → Except PyErr Nat
  | .str s => .ok s.data.length
  | .list xs => .ok xs.length
  | .dict kvs => .ok kvs.length
  | _ => .error .typeError

mutual

/-- Python `==` on the modelled values (structural; the numeric
cross-type equalities `1 == True` etc. never arise in the code's
comparisons, which are all against string constants). -/
def Py.eqb : Py → Py → Bool
  | .none, .none => true
  | .bool a, .bool b => a == b
  | .int a, .int b => a == b
  | .str a, .str b => a = b
  | .list a, .list b => PyList.eqb a b
  | .dict a, .dict b => PyDict.eqb a b
  | _, _ => false

def PyList.eqb : PyList → PyList → Bool
  | .nil, .nil => true
  | .cons a as, .cons b bs => Py.eqb a b && PyList.eqb as bs
  | _, _ => false

def PyDict.eqb : PyDict → PyDict → Bool
  | .nil, .nil => true
  | .cons k a as, .cons k' b bs => k = k' && Py.eqb a b && PyDict.eqb as bs
  | _, _ => false

end

/-- The whitespace stripped by Python's `str.strip()` (the ASCII part;
the code's inputs are ASCII). -/
def isPySpace (c : Char) : Bool :=
  c.toNat = 32 || c.toNat = 9 || c.toNat = 10 || c.toNat = 13 ||
  c.toNat = 11 || c.toNat = 12

def stripList (l : List Char) : List Char :=
  ((l.dropWhile isPySpace).reverse.dropWhile isPySpace).reverse

/-- Python `str.strip()`. -/
def pyStrip (s : String) : String := ⟨stripList s.data⟩

/-- Codepoint-lexicographic `<=` on char lists, as Python compares
strings. -/
def charListLe : List Char → List Char → Bool
  | [], _ => true
  | _ :: _, [] => false
  | a :: as, b :: bs =>
    if a.toNat < b.toNat then true
    else if a.toNat = b.toNat then charListLe as bs
    else false

/-- Python string `<=` (codepoint lexicographic). -/
def strLeB (a b : String) : Bool := charListLe a.data b.data

def insortStr (x : String) : List String → List String
  | [] => [x]
  | y :: ys => if strLeB x y then x :: y :: ys else y :: insortStr x ys

/-- `sorted` on a list of strings (insertion sort; Python's sort is
stable, and on the unique-or-equal string lists fed to it stability is
unobservable). -/
def sortStrs : List String → List String
  | [] => []
  | x :: xs => insortStr x (sortStrs xs)

def insortKV (k : String) (v : Py) : PyDict → PyDict
  | .nil => .cons k v .nil
  | .cons k' v' kvs =>
    if strLeB k k' then .cons k v (.cons k' v' kvs)
    else .cons k' v' (insortKV k v kvs)

/-- Sort a dict's bindings by key (for `json.dumps(..., sort_keys=True)`;
Python dict keys are unique, so the order among equal keys is moot). -/
def sortDict : PyDict → PyDict
  | .nil => .nil
  | .cons k v kvs => insortKV k v (sortDict kvs)

mutual

/-- Recursively sort every dict's bindings by key.  `json.dumps` with
`sort_keys=True` is serialisation after this canonicalisation. -/
def canonPy : Py → Py
  | .none => .none
  | .bool b => .bool b
  | .int n => .int n
  | .str s => .str s
  | .list xs => .list (canonPyList xs)
  | .dict kvs => .dict (sortDict (canonPyDict kvs))

def canonPyList : PyList → PyList
  | .nil => .nil
  | .cons x xs => .cons (canonPy x) (canonPyList xs)

def canonPyDict : PyDict → PyDict
  | .nil => .nil
  | .cons k v kvs => .cons k (canonPy v) (canonPyDict kvs)

end

def hexDigit (n : Nat) : Char :=
  if n < 10 then Char.ofNat (48 + n) else Char.ofNat (87 + n)

/-- Fixed-width lowercase hex rendering of `n` (big-endian digits). -/
def toHexPad (width n : Nat) : String :=
  ⟨(List.range width).map (fun i => hexDigit (n / 16 ^ (width - 1 - i) % 16))⟩

/-- JSON string escaping as `json.dumps` performs it with the default
`ensure_ascii=True`: the two-character escapes, `\uXXXX` for other
control characters and for all non-ASCII characters, surrogate pairs
above the BMP. -/
def escapeJsonChar (c : Char) : String :=
  if c = '"' then "\\\""
  else if c = '\\' then "\\\\"
  else if c = '\n' then "\\n"
  else if c = '\t' then "\\t"
  else if c = '\r' then "\\r"
  else if c.toNat = 8 then "\\b"
  else if c.toNat = 12 then "\\f"
  else if c.toNat < 32 then "\\u" ++ toHexPad 4 c.toNat
  else if c.toNat < 127 then ⟨[c]⟩
  else if c.toNat < 65536 then "\\u" ++ toHexPad 4 c.toNat
  else
    "\\u" ++ toHexPad 4 (55296 + (c.toNat - 65536) / 1024) ++
    "\\u" ++ toHexPad 4 (56320 + (c.toNat - 65536) % 1024)

def escapeJson (s : String) : String :=
  String.join (s.data.map escapeJsonChar)

mutual

/-- `json.dumps` with Python's default separators `", "` / `": "`.
Key sorting is done beforehand by `canonPy`. -/
def pyDumps : Py → String
  | .none => "null"
  | .bool true => "true"
  | .bool false => "false"
  | .int n => toString n
  | .str s => "\"" ++ escapeJson s ++ "\""
  | .list xs => "[" ++ pyDumpsList xs ++ "]"
  | .dict kvs => "\x7b" ++ pyDumpsDict kvs ++ "\x7d"

def pyDumpsList : PyList → String
  | .nil => ""
  | .cons x .nil => pyDumps x
  | .cons x (.cons y ys) => pyDumps x ++ ", " ++ pyDumpsList (.cons y ys)

def pyDumpsDict : PyDict → String
  | .nil => ""
  | .cons k v .nil => "\"" ++ escapeJson k ++ "\": " ++ pyDumps v
  | .cons k v (.cons k' v' kvs) =>
    "\"" ++ escapeJson k ++ "\": " ++ pyDumps v ++ ", " ++
    pyDumpsDict (.cons k' v' kvs)

end

/-- `json.dumps(x, sort_keys=True)`. -/
def pyJsonDumpsSorted (x : Py) : String := pyDumps (canonPy x)

def M32 : Nat := 4294967296

def rotr32 (x n : Nat) : Nat := (x / 2 ^ n + x % 2 ^ n * 2 ^ (32 - n)) % M32

def shr32 (x n : Nat) : Nat := x / 2 ^ n

def not32 (x : Nat) : Nat := M32 - 1 - x

def sha256K : List Nat :=
  [1116352408, 1899447441, 3049323471, 3921009573, 961987163,
   1508970993, 2453635748, 2870763221, 3624381080, 310598401,
   607225278, 1426881987, 1925078388, 2162078206, 2614888103,
   3248222580, 3835390401, 4022224774, 264347078, 604807628,
   770255983, 1249150122, 1555081692, 1996064986, 2554220882,
   2821834349, 2952996808, 3210313671, 3336571891, 3584528711,
   113926993, 338241895, 666307205, 773529912, 1294757372,
   1396182291, 1695183700, 1986661051, 2177026350, 2456956037,
   2730485921, 2820302411, 3259730800, 3345764771, 3516065817,
   3600352804, 4094571909, 275423344, 430227734, 506948616,
   659060556, 883997877, 958139571, 1322822218, 1537002063,
   1747873779, 1955562222, 2024104815, 2227730452, 2361852424,
   2428436474, 2756734187, 3204031479, 3329325298]

def sha256H0 : List Nat :=
  [1779033703, 3144134277, 1013904242, 2773480762,
   1359893119, 2600822924, 528734635, 1541459225]

def smallSigma0 (x : Nat) : Nat := rotr32 x 7 ^^^ rotr32 x 18 ^^^ shr32 x 3

def smallSigma1 (x : Nat) : Nat := rotr32 x 17 ^^^ rotr32 x 19 ^^^ shr32 x 10

def bigSigma0 (x : Nat) : Nat := rotr32 x 2 ^^^ rotr32 x 13 ^^^ rotr32 x 22

def bigSigma1 (x : Nat) : Nat := rotr32 x 6 ^^^ rotr32 x 11 ^^^ rotr32 x 25

/-- Extend a 16-word block to the 64-word message schedule. -/
def sha256Extend (fuel : Nat) (w : List Nat) : List Nat :=
  match fuel with
  | 0 => w
  | n + 1 =>
    sha256Extend n (w ++
      [(smallSigma1 (w.getD (w.length - 2) 0) + w.getD (w.length - 7) 0 +
        smallSigma0 (w.getD (w.length - 15) 0) + w.getD (w.length - 16) 0) % M32])

def sha256Round (st : List Nat) (kw : Nat × Nat) : List Nat :=
  match st with
  | [a, b, c, d, e, f, g, h] =>
    let ch := (e &&& f) ^^^ (not32 e &&& g)
    let maj := (a &&& b) ^^^ (a &&& c) ^^^ (b &&& c)
    let t1 := (h + bigSigma1 e + ch + kw.1 + kw.2) % M32
    let t2 := (bigSigma0 a + maj) % M32
    [(t1 + t2) % M32, a, b, c, (d + t1) % M32, e, f, g]
  | st => st

def sha256Block (h : List Nat) (block : List Nat) : List Nat :=
  let w := sha256Extend 48 block
  let st := (sha256K.zip w).foldl sha256Round h
  (h.zip st).map (fun p => (p.1 + p.2) % M32)

def be64 (n : Nat) : List Nat :=
  (List.range 8).map (fun i => n / 2 ^ (8 * (7 - i)) % 256)

def sha256Pad (bytes : List Nat) : List Nat :=
  bytes ++ [128] ++ List.replicate ((119 - bytes.length % 64) % 64) 0 ++
    be64 (8 * bytes.length)

def chunks64 (fuel : Nat) (l : List Nat) : List (List Nat) :=
  match fuel, l with
  | _, [] => []
  | 0, _ => []
  | n + 1, l => l.take 64 :: chunks64 n (l.drop 64)

def words16 (block : List Nat) : List Nat :=
  (List.range 16).map (fun i =>
    block.getD (4 * i) 0 * 16777216 + block.getD (4 * i + 1) 0 * 65536 +
    block.getD (4 * i + 2) 0 * 256 + block.getD (4 * i + 3) 0)

def sha256Words (bytes : List Nat) : List Nat :=
  let padded := sha256Pad bytes
  ((chunks64 padded.length padded).map words16).foldl sha256Block sha256H0

def strBytes (s : String) : List Nat := s.toUTF8.toList.map UInt8.toNat

/-- `hashlib.sha256(s.encode()).hexdigest()[:16]`. -/
def sha256hex16 (s : String) : String :=
  ⟨(String.join ((sha256Words (strBytes s)).map (toHexPad 8))).data.take 16⟩

def digitsToNat : List Char → Option Nat
  | [] => some 0
  | c :: cs =>
    if 48 ≤ c.toNat ∧ c.toNat ≤ 57 then
      (digitsToNat cs).map (fun n => n * 10 + (c.toNat - 48))
    else Option.none

def parseDigits (l : List Char) : Option Nat :=
  if l = [] then Option.none else (digitsToNat l.reverse)

/-- Decimal integer parsing; stands in for `datetime.fromisoformat` on
the integer-seconds timestamp strings of this model (a malformed string
gives `Option.none`, as `fromisoformat` raises `ValueError`). -/
def parseIntStr (s : String) : Option Int :=
  match s.data with
  | '-' :: ds => (parseDigits ds).map (fun n => -(n : Int))
  | ds => (parseDigits ds).map (fun n => (n : Int))

mutual

/-- Python `repr` of the modelled values (escaping inside strings is not
rendered; the code only formats plain identifiers into its messages). -/
def pyRepr : Py → String
  | .none => "None"
  | .bool true => "True"
  | .bool false => "False"
  | .int n => toString n
  | .str s => "\x27" ++ s ++ "\x27"
  | .list xs => "[" ++ pyReprList xs ++ "]"
  | .dict kvs => "\x7b" ++ pyReprDict kvs ++ "\x7d"

def pyReprList : PyList → String
  | .nil => ""
  | .cons x .nil => pyRepr x
  | .cons x (.cons y ys) => pyRepr x ++ ", " ++ pyReprList (.cons y ys)

def pyReprDict : PyDict → String
  | .nil => ""
  | .cons k v .nil => "\x27" ++ k ++ "\x27: " ++ pyRepr v
  | .cons k v (.cons k' v' kvs) =>
    "\x27" ++ k ++ "\x27: " ++ pyRepr v ++ ", " ++ pyReprDict (.cons k' v' kvs)

end

/-- Python `str(x)` (used by the f-strings in error messages). -/
def pyStrV : Py → String
  | .str s => s
  | v => pyRepr v

/-- Python `str.lower()` (ASCII; the code's inputs are ASCII). -/
def toLowerStr (s : String) : String := ⟨s.data.map Char.toLower⟩

def isPre : List Char → List Char → Bool
  | [], _ => true
  | _ :: _, [] => false
  | a :: as, b :: bs => a == b && isPre as bs

def subIn : List Char → List Char → Bool
  | n, [] => isPre n []
  | n, h :: hs => isPre n (h :: hs) || subIn n hs

/-- Python `needle in haystack` on strings. -/
def strContains (needle hay : String) : Bool := subIn needle.data hay.data

/-- Python `x in [c1, ..., cn]` against a list of string constants. -/
def pyInStrs (x : Py) (cs : List String) : Bool :=
  cs.any (fun c => Py.eqb x (.str c))

def allStrs : PyList → Option (List String)
  | .nil => some []
  | .cons (.str s) xs => (allStrs xs).map (s :: ·)
  | .cons _ _ => Option.none

/-- Python `sorted(v)` as `generate_lesson_hash` uses it: its arguments
are lists of strings; a list with a non-string element raises
`TypeError` (incomparable types), as does a non-iterable argument.
(Python would also accept other iterables and char-sort a string; the
code never passes one to `sorted`.) -/
def pySortedE (v : Py) : Except PyErr Py :=
  match v with
  | .list xs =>
    match allStrs xs with
    | some ss => .ok (Py.strs (sortStrs ss))
    | Option.none => .error .typeError
  | _ => .error .typeError

/-- `{'mustHave': [], 'shouldHave': [], 'couldHave': [], 'wontHave': []}`. -/
def emptyPriorities : Py :=
  Py.dictOf [("mustHave", Py.listOf []), ("shouldHave", Py.listOf []),
             ("couldHave", Py.listOf []), ("wontHave", Py.listOf [])]

/-- The single-item default the `except` arms of
`validate_moscow_priorities` and `convert_contextual_to_moscow` return. -/
def minimalDefaultPriorities : Py :=
  Py.dictOf [("mustHave", Py.strs ["Core vocabulary"]),
             ("shouldHave", Py.strs ["Basic grammar"]),
             ("couldHave", Py.listOf []), ("wontHave", Py.listOf [])]

/-- `convert_contextual_to_moscow` (integrationLayer.py lines 196-226). -/
def convert_contextual_to_moscow (contextual_use : Py) : Py :=
  match (do
    let t ← pyGetE contextual_use "type" (.str "")
    match t with
    | .str s => Except.ok (toLowerStr s)
    | _ => Except.error PyErr.attributeError : Except PyErr String) with
  | .ok use_type =>
    if use_type = "professional" then
      Py.dictOf [("mustHave", Py.strs ["Professional communication", "Core vocabulary", "Grammar fundamentals"]),
                 ("shouldHave", Py.strs ["Business terminology", "Formal writing", "Pronunciation practice"]),
                 ("couldHave", Py.strs ["Cultural context", "Casual conversation"]),
                 ("wontHave", Py.listOf [])]
    else if use_type = "personal" then
      Py.dictOf [("mustHave", Py.strs ["Basic conversation", "Core vocabulary", "Pronunciation practice"]),
                 ("shouldHave", Py.strs ["Cultural context", "Travel phrases", "Grammar fundamentals"]),
                 ("couldHave", Py.strs ["Professional communication", "Formal writing"]),
                 ("wontHave", Py.listOf [])]
    else
      Py.dictOf [("mustHave", Py.strs ["Core vocabulary", "Basic grammar"]),
                 ("shouldHave", Py.strs ["Pronunciation practice", "Basic conversation"]),
                 ("couldHave", Py.strs ["Cultural context", "Professional communication"]),
                 ("wontHave", Py.listOf [])]
  | .error _ => minimalDefaultPriorities

/-- `any(pp.get(key, []) for key in ['mustHave', 'shouldHave', 'couldHave'])`
(the generator is lazy: it stops at the first truthy value). -/
def anyPriorityKeyE (pp : Py) : Except PyErr Bool := do
  let a ← pyGetE pp "mustHave" (Py.listOf [])
  if a.truthy then return true
  let b ← pyGetE pp "shouldHave" (Py.listOf [])
  if b.truthy then return true
  let c ← pyGetE pp "couldHave" (Py.listOf [])
  return c.truthy

def extractPrioritiesBody (lesson_request : Py) : Except PyErr Py := do
  let phase_priorities ← pyGetE lesson_request "phasePriorities" (Py.dictOf [])
  let usePhase ← if phase_priorities.truthy then anyPriorityKeyE phase_priorities else pure false
  if usePhase then return phase_priorities
  let user_priorities ← pyGetE lesson_request "userPriorities" (Py.dictOf [])
  let useUser ← if user_priorities.truthy then anyPriorityKeyE user_priorities else pure false
  if useUser then return user_priorities
  let contextual_use ← pyGetE lesson_request "contextualUse" (Py.dictOf [])
  let useCtx ← if contextual_use.truthy then
      (do let ps ← pyGetE contextual_use "priorityScale" Py.none; pure ps.truthy)
    else pure false
  if useCtx then return convert_contextual_to_moscow contextual_use
  return emptyPriorities

/-- `extract_moscow_priorities` (integrationLayer.py lines 106-132);
the `except` arm degrades to the empty four-list profile. -/
def extract_moscow_priorities (lesson_request : Py) : Py :=
  match extractPrioritiesBody lesson_request with
  | .ok v => v
  | .error _ => emptyPriorities

/-- `[item.strip() for item in priority_list if isinstance(item, str) and item.strip()][:10]`. -/
def cleanPriorityItems (xs : PyList) : List String :=
  (xs.toList.filterMap (fun item =>
    match item with
    | .str s => if pyStrip s ≠ "" then some (pyStrip s) else Option.none
    | _ => Option.none)).take 10

/-- One category of `validate_moscow_priorities`: a non-list value for
the key fails the `isinstance` guard and the category stays `[]`. -/
def cleanCategory (kvs : PyDict) (cat : String) : List String :=
  match kvs.getD cat (Py.listOf []) with
  | .list xs => cleanPriorityItems xs
  | _ => []

/-- The default balanced profile substituted when every cleaned list is
empty. -/
def defaultBalanced : Py :=
  Py.dictOf [("mustHave", Py.strs ["Core vocabulary", "Basic grammar"]),
             ("shouldHave", Py.strs ["Pronunciation practice", "Cultural context"]),
             ("couldHave", Py.listOf []), ("wontHave", Py.listOf [])]

/-- `validate_moscow_priorities` (integrationLayer.py lines 134-168).
A non-dict argument makes `priorities.get` raise `AttributeError` and
the `except` arm returns the minimal single-item default. -/
def validate_moscow_priorities (priorities : Py) : Py :=
  match priorities with
  | .dict kvs =>
    let mh := cleanCategory kvs "mustHave"
    let sh := cleanCategory kvs "shouldHave"
    let ch := cleanCategory kvs "couldHave"
    let wh := cleanCategory kvs "wontHave"
    if mh.length + sh.length + ch.length + wh.length = 0 then defaultBalanced
    else
      Py.dictOf [("mustHave", Py.strs mh), ("shouldHave", Py.strs sh),
                 ("couldHave", Py.strs ch), ("wontHave", Py.strs wh)]
  | _ => minimalDefaultPriorities

/-- Round-half-to-even of the exact rational `num/den`, which (see the
header) coincides with the source's `round(v / total * 100)` on every
input reachable from a validated profile. -/
def roundHalfEven (num den : Nat) : Nat :=
  let q := num / den
  let r := num % den
  if 2 * r < den then q
  else if 2 * r > den then q + 1
  else if q % 2 = 0 then q else q + 1

/-- `calculate_priority_time_allocation` (integrationLayer.py lines
170-194).  `max(60, 80 - should_have_count * 5)` is computed in `Nat`:
truncated subtraction only differs from Python's signed arithmetic when
`80 - 5*sh` is negative, and the `max` with 60 absorbs that case. -/
def calculate_priority_time_allocation (priorities : Py) : Py :=
  match (do
    let _must_have_count ← pyGetE priorities "mustHave" (Py.listOf []) >>= pyLenE
    let should_have_count ← pyGetE priorities "shouldHave" (Py.listOf []) >>= pyLenE
    let could_have_count ← pyGetE priorities "couldHave" (Py.listOf []) >>= pyLenE
    pure (should_have_count, could_have_count) : Except PyErr (Nat × Nat)) with
  | .ok (sh, ch) =>
    let mustHave := max 60 (80 - sh * 5)
    let shouldHave := min 30 (sh * 8)
    let couldHave := min 15 (ch * 3)
    let buffer := 10
    let total := mustHave + shouldHave + couldHave + buffer
    Py.dictOf [("mustHave", .int (roundHalfEven (mustHave * 100) total)),
               ("shouldHave", .int (roundHalfEven (shouldHave * 100) total)),
               ("couldHave", .int (roundHalfEven (couldHave * 100) total)),
               ("buffer", .int (roundHalfEven (buffer * 100) total))]
  | .error _ =>
    Py.dictOf [("mustHave", .int 70), ("shouldHave", .int 20),
               ("couldHave", .int 10), ("buffer", .int 0)]

/-- The `cache_key_data` object of `generate_lesson_hash`
(integrationLayer.py lines 269-284), with the source's evaluation
order.  Note the singular `nativeLanguage` profile key. -/
def cache_key_py (user_profile lesson_request priorities : Py) : Except PyErr Py := do
  let nativeLanguage ← pyGetE user_profile "nativeLanguage" Py.none
  let nationality ← pyGetE user_profile "nationality" Py.none
  let learningStyle ← pyGetE user_profile "learningStyle" Py.none
  let additional ← pyGetE user_profile "additionalLanguages" (Py.listOf [])
  let additionalSorted ← pySortedE additional
  let targetLanguage ← pyGetE lesson_request "targetLanguage" Py.none
  let contextualUse ← pyGetE lesson_request "contextualUse" Py.none
  let topic ← pyGetE lesson_request "topic" Py.none
  let proficiencyLevel ← pyGetE lesson_request "proficiencyLevel" (.str "beginner")
  let mh ← if priorities.truthy then pyGetE priorities "mustHave" (Py.listOf []) else pure (Py.listOf [])
  let mhSorted ← pySortedE mh
  let sh ← if priorities.truthy then pyGetE priorities "shouldHave" (Py.listOf []) else pure (Py.listOf [])
  let shSorted ← pySortedE sh
  let ch ← if priorities.truthy then pyGetE priorities "couldHave" (Py.listOf []) else pure (Py.listOf [])
  let chSorted ← pySortedE ch
  pure (Py.dictOf
    [("nativeLanguage", nativeLanguage), ("nationality", nationality),
     ("learningStyle", learningStyle), ("additionalLanguages", additionalSorted),
     ("targetLanguage", targetLanguage), ("contextualUse", contextualUse),
     ("topic", topic), ("proficiencyLevel", proficiencyLevel),
     ("priorities", Py.dictOf [("mustHave", mhSorted), ("shouldHave", shSorted), ("couldHave", chSorted)])])

/-- `cache_key_string = json.dumps(cache_key_data, sort_keys=True)`. -/
def cache_key_string (user_profile lesson_request priorities : Py) : Except PyErr String :=
  (cache_key_py user_profile lesson_request priorities).map pyJsonDumpsSorted

/-- `generate_lesson_hash` (integrationLayer.py lines 261-288). -/
def generate_lesson_hash (user_profile lesson_request priorities : Py) : Except PyErr String :=
  (cache_key_string user_profile lesson_request priorities).map sha256hex16

/-- The DynamoDB `pacific-lessons` table, keyed by `lessonHash`. -/
abbrev CacheStore := List (String × Py)

def storeLookup (store : CacheStore) (h : String) : Option Py :=
  (store.find? (fun kv => kv.1 = h)).map (·.2)

def storePut : CacheStore → String → Py → CacheStore
  | [], h, item => [(h, item)]
  | kv :: store, h, item =>
    if kv.1 = h then (h, item) :: store else kv :: storePut store h item

/-- The `lesson_data` dict `get_cached_lesson` returns on a hit
(dynamodbCache.py lines 42-50). -/
def cachedLessonView (kvs : PyDict) : Py :=
  Py.dictOf [("lessonContent", kvs.getD "lessonContent" Py.none),
             ("metadata", Py.dictOf
               [("cached", .bool true),
                ("createdAt", kvs.getD "createdAt" Py.none),
                ("userProfile", kvs.getD "userProfile" Py.none),
                ("lessonRequest", kvs.getD "lessonRequest" Py.none)])]

/-- `get_cached_lesson` (dynamodbCache.py lines 14-60).  The only store
interaction is the read-only `get_item`, so the store comes back
unchanged on every path; a `fromisoformat` failure (malformed or
non-string `createdAt`) is swallowed by the generic `except`, which
returns `None`. -/
def get_cached_lesson (store : CacheStore) (now : Int) (lesson_hash : String) :
    Option Py × CacheStore :=
  match storeLookup store lesson_hash with
  | Option.none => (Option.none, store)
  | some item =>
    match item with
    | .dict kvs =>
      let created := kvs.getD "createdAt" Py.none
      if created.truthy then
        match created with
        | .str s =>
          match parseIntStr s with
          | some t =>
            if now - t > 86400 then (Option.none, store)
            else (some (cachedLessonView kvs), store)
          | Option.none => (Option.none, store)
        | _ => (Option.none, store)
      else (some (cachedLessonView kvs), store)
    | _ => (Option.none, store)

/-- `cache_lesson` (dynamodbCache.py lines 62-91).  `putAvail = false`
is the `ClientError` case: `put_item` fails, the function returns
`False` and the store is untouched. -/
def cache_lesson (putAvail : Bool) (now : Int) (store : CacheStore)
    (lesson_hash : String) (lesson_data user_profile lesson_request : Py) :
    Bool × CacheStore :=
  let cache_item := Py.dictOf
    [("lessonHash", .str lesson_hash), ("lessonContent", lesson_data),
     ("userProfile", user_profile), ("lessonRequest", lesson_request),
     ("createdAt", .str (toString now)), ("ttl", .int (now + 604800))]
  if putAvail then (true, storePut store lesson_hash cache_item)
  else (false, store)

/-- `format_lesson_response` (integrationLayer.py lines 228-259).
`stats` is the value of the external `get_cache_stats()` call (a
DynamoDB `describe_table` summary), attached only on cache hits. -/
def format_lesson_response (stats : Py) (lesson_data : Py) (from_cache : Bool) : Py :=
  match (do
    let md1 ← pyGetE lesson_data "metadata" (Py.dictOf [])
    let ts ← pyGetE md1 "timestamp" Py.none
    let md2 ← pyGetE lesson_data "metadata" (Py.dictOf [])
    let gw ← pyGetE md2 "modelUsed" (.str "unknown")
    let md3 ← pyGetE lesson_data "metadata" (Py.dictOf [])
    let pf ← pyGetE md3 "priorityFocus" (Py.listOf [])
    let md4 ← pyGetE lesson_data "metadata" (Py.dictOf [])
    let po ← pyGetE md4 "phaseOptimized" Py.none
    pure (ts, gw, pf, po) : Except PyErr (Py × Py × Py × Py)) with
  | .ok (ts, gw, pf, po) =>
    Py.dictOf [("success", .bool true), ("data", lesson_data),
      ("metadata", Py.dictOf
        ([("cached", .bool from_cache), ("timestamp", ts),
          ("generatedWith", gw), ("priorityFocus", pf),
          ("phaseOptimized", po), ("moscowEnabled", .bool true)] ++
         if from_cache then [("cacheStats", stats)] else []))]
  | .error _ =>
    Py.dictOf [("success", .bool false),
               ("error", .str "Failed to format lesson response"),
               ("data", lesson_data)]

/-- The external world of one invocation: the clock, the
`get_cache_stats()` summary, DynamoDB write availability, and the
Bedrock generation service `generate_lesson_with_ai` (an external
collaborator per spec section 1, so an uninterpreted function here). -/
structure World where
  now : Int
  stats : Py
  putAvail : Bool
  genAI : Py → Py → Except PyErr Py

/-- `{**lesson_request, key1: v1, ...}` (raises `TypeError` when
`lesson_request` is not a mapping). -/
def pyMergeE (r : Py) (extra : List (String × Py)) : Except PyErr PyDict :=
  match r with
  | .dict kvs => .ok (extra.foldl (fun acc kv => acc.set kv.1 kv.2) kvs)
  | _ => .error .typeError

/-- `process_lesson_request` (integrationLayer.py lines 11-53).  Its
`except` clause just logs and re-raises, so it is the identity on the
error component. -/
def process_lesson_request (w : World) (store : CacheStore)
    (user_profile lesson_request : Py) : Except PyErr (Py × CacheStore) := do
  let moscow_priorities := extract_moscow_priorities lesson_request
  let validated_priorities := validate_moscow_priorities moscow_priorities
  let lesson_hash ← generate_lesson_hash user_profile lesson_request validated_priorities
  match get_cached_lesson store w.now lesson_hash with
  | (some cached_lesson, store') =>
    pure (format_lesson_response w.stats cached_lesson true, store')
  | (Option.none, store') => do
    let enhanced_kvs ← pyMergeE lesson_request
      [("phasePriorities", validated_priorities),
       ("priorityTimeAllocation", calculate_priority_time_allocation validated_priorities)]
    let generated_lesson ← w.genAI user_profile (.dict enhanced_kvs)
    let cacheRes := cache_lesson w.putAvail w.now store' lesson_hash generated_lesson user_profile lesson_request
    -- `if not cache_success:` only emits a warning
    pure (format_lesson_response w.stats generated_lesson false, cacheRes.2)

/-- `generate_simulation_scenario` (integrationLayer.py lines 316-354).
The `and` conditions short-circuit, so `.lower()` only runs when the
type matched; any raise falls to the `except` fallback scenario. -/
def generate_simulation_scenario (_user_profile lesson_request : Py) : Py :=
  match (do
    let contextual_use ← pyGetE lesson_request "contextualUse" (Py.dictOf [])
    let target_language ← pyGetE lesson_request "targetLanguage" (.str "Unknown")
    let ty1 ← pyGetE contextual_use "type" Py.none
    let c1 ← if Py.eqb ty1 (.str "professional") then
        (match target_language with
         | .str s => Except.ok (strContains "spanish" (toLowerStr s))
         | _ => Except.error PyErr.attributeError)
      else pure false
    if c1 then
      return Py.dictOf [("scenario", Py.dictOf
        [("title", .str "Business Meeting in Asunción"),
         ("location", .str "Paraguay Trade Office, Asunción"),
         ("situation", .str "Negotiating agricultural export agreement"),
         ("characters", Py.listOf [Py.dictOf
           [("name", .str "Carlos Mendoza"), ("role", .str "Export Director"),
            ("formality", .str "formal")]]),
         ("culturalContext", .str "Paraguayan business culture values relationship-building"),
         ("objectives", Py.strs ["Establish trade partnership", "Negotiate pricing"])])]
    let ty2 ← pyGetE contextual_use "type" Py.none
    let c2 ← if Py.eqb ty2 (.str "personal") then
        (match target_language with
         | .str s => Except.ok (strContains "italian" (toLowerStr s))
         | _ => Except.error PyErr.attributeError)
      else pure false
    if c2 then
      return Py.dictOf [("scenario", Py.dictOf
        [("title", .str "Exploring Italian Heritage"),
         ("location", .str "Venice, inspired by Gion Constantino"),
         ("situation", .str "Cultural immersion through character inspiration"),
         ("characters", Py.listOf [Py.dictOf
           [("name", .str "Marco Benetti"), ("role", .str "Local historian"),
            ("formality", .str "friendly")]]),
         ("culturalContext", .str "Italian appreciation for art and culture"),
         ("objectives", Py.strs ["Learn about Italian culture", "Practice conversation"])])]
    return Py.dictOf [("scenario", Py.dictOf
      [("title", .str (pyStrV target_language ++ " Practice")),
       ("location", .str "General setting")])] : Except PyErr Py) with
  | .ok v => v
  | .error _ =>
    Py.dictOf [("scenario", Py.dictOf
      [("title", .str "Practice Conversation"), ("location", .str "General")])]

/-- `generate_simulation_dialogue` (integrationLayer.py lines 356-391). -/
def generate_simulation_dialogue (_user_profile lesson_request : Py) : Py :=
  match (do
    let _scenario ← pyGetE lesson_request "scenario" (Py.dictOf [])
    let target_language ← pyGetE lesson_request "targetLanguage" (.str "Unknown")
    let lowered ← (match target_language with
      | .str s => Except.ok (toLowerStr s)
      | _ => Except.error PyErr.attributeError)
    if strContains "spanish" lowered then
      return Py.dictOf [("dialogue", Py.listOf [Py.dictOf
        [("speaker", .str "Carlos Mendoza"),
         ("text", .str "Buenos días. Es un placer conocerle."),
         ("translation", .str "Good morning. It\x27s a pleasure to meet you."),
         ("pronunciation", .str "BWE-nos DEE-as. Es un pla-SER ko-no-SER-le."),
         ("culturalNote", .str "Formal greetings are very important in business.")]])]
    if strContains "italian" lowered then
      return Py.dictOf [("dialogue", Py.listOf [Py.dictOf
        [("speaker", .str "Marco Benetti"),
         ("text", .str "Ciao! Benvenuto a Venezia!"),
         ("translation", .str "Hi! Welcome to Venice!"),
         ("pronunciation", .str "CHAH-o! Ben-ve-NU-to a Ve-NE-tsee-a!"),
         ("culturalNote", .str "Venetians are warm and welcoming.")]])]
    return Py.dictOf [("dialogue", Py.listOf [Py.dictOf
      [("speaker", .str "Partner"),
       ("text", .str ("Hello! Let\x27s practice " ++ pyStrV target_language ++ "."))]])]
    : Except PyErr Py) with
  | .ok v => v
  | .error _ =>
    Py.dictOf [("dialogue", Py.listOf [Py.dictOf
      [("speaker", .str "Partner"), ("text", .str "Hello!")]])]

/-- `continue_simulation_dialogue` (integrationLayer.py lines 393-406):
a constant payload (nothing in its `try` body can raise). -/
def continue_simulation_dialogue (_user_profile _lesson_request : Py) : Py :=
  Py.dictOf [("nextTurn", Py.dictOf
    [("speaker", .str "Conversation Partner"),
     ("text", .str "That\x27s interesting! Tell me more."),
     ("translation", .str "Continue the conversation!"),
     ("culturalNote", .str "Keep practicing!")])]

def validLearningStyles : List String :=
  ["visual", "auditory", "reading", "kinesthetic", "balanced",
   "visual-auditory", "visual-kinesthetic", "auditory-kinesthetic"]

def cefrLevels : List String := ["A1", "A2", "B1", "B2", "C1", "C2"]

def learningPhases : List String := ["new_knowledge", "consolidate", "simulation"]

/-- `validate_input` (coreStructure.py lines 104-200).  Returns the
error message (`Option.none` means valid) together with the profile,
which the function mutates in place when it wraps a bare-string
`nativeLanguages` into a one-element array. -/
def validate_input (user_profile₀ lesson_request : Py) : Except PyErr (Option String × Py) := do
  let user_profile := user_profile₀
  if ¬ user_profile.truthy then return (some "Missing user profile", user_profile)
  let nationality ← pyGetE user_profile "nationality" Py.none
  if ¬ nationality.truthy then
    return (some "Missing required user profile field: nationality", user_profile)
  let native_languages ← pyGetE user_profile "nativeLanguages" Py.none
  if ¬ native_languages.truthy then
    return (some "Missing required user profile field: nativeLanguages", user_profile)
  let user_profile ←
    match native_languages with
    | .str s =>
      (match user_profile with
       | .dict kvs => pure (Py.dict (kvs.set "nativeLanguages" (Py.listOf [.str s])))
       | _ => throw PyErr.attributeError)
    | _ => pure user_profile
  -- `elif not isinstance(native_languages, list) or len(...) == 0`: a
  -- truthy list is non-empty, so for a list the length arm cannot fire
  let nlBad := match native_languages with
    | .str _ => false
    | .list _ => false
    | _ => true
  if nlBad then return (some "nativeLanguages must be a non-empty array", user_profile)
  let additional_languages ← pyGetE user_profile "additionalLanguages" (Py.listOf [])
  let alOk : Bool := match additional_languages with | .list _ => true | _ => false
  if ¬ alOk then return (some "additionalLanguages must be an array", user_profile)
  let learning_style ← pyGetE user_profile "learningStyle" Py.none
  if ¬ learning_style.truthy then
    return (some "Missing required user profile field: learningStyle", user_profile)
  if ¬ pyInStrs learning_style validLearningStyles then
    return (some ("Invalid learning style: " ++ pyStrV learning_style), user_profile)
  if ¬ lesson_request.truthy then return (some "Missing lesson request", user_profile)
  let target_language ← pyGetE lesson_request "targetLanguage" Py.none
  if ¬ target_language.truthy then
    return (some "Missing required lesson request field: targetLanguage", user_profile)
  match target_language with
  | .dict tkvs =>
    let lang := tkvs.getD "language" Py.none
    if ¬ lang.truthy then
      return (some "Target language object missing \x27language\x27 field", user_profile)
    match lang with
    | .str s =>
      if pyStrip s = "" then
        return (some "Target language must be a non-empty string", user_profile)
    | _ => return (some "Target language must be a non-empty string", user_profile)
  | .str s =>
    if pyStrip s = "" then
      return (some "Target language must be a non-empty string", user_profile)
  | _ =>
    return (some "Target language must be string or object with \x27language\x27 field", user_profile)
  let contextual_use ← pyGetE lesson_request "contextualUse" (Py.dictOf [])
  let cuBad := contextual_use.truthy && (match contextual_use with | .dict _ => false | _ => true)
  if cuBad then return (some "contextualUse must be an object", user_profile)
  let topic ← pyGetE lesson_request "topic" (.str "Basic Communication")
  let topicOk : Bool := match topic with | .str _ => true | _ => false
  if ¬ topicOk then return (some "topic must be a string", user_profile)
  let proficiency ← pyGetE lesson_request "proficiencyLevel" Py.none
  if proficiency.truthy && ¬ pyInStrs proficiency cefrLevels then
    return (some ("Invalid proficiency level: " ++ pyStrV proficiency ++
      ". Must be one of " ++ pyRepr (Py.strs cefrLevels)), user_profile)
  let placement_test ← pyGetE user_profile "placementTest" Py.none
  let ptBad := placement_test.truthy && (match placement_test with | .dict _ => false | _ => true)
  if ptBad then return (some "placementTest must be an object", user_profile)
  if placement_test.truthy then
    let cefr_level ← pyGetE placement_test "cefrLevel" Py.none
    if cefr_level.truthy && ¬ pyInStrs cefr_level cefrLevels then
      return (some ("Invalid CEFR level in placement test: " ++ pyStrV cefr_level), user_profile)
  let learning_phase ← pyGetE lesson_request "learningPhase" Py.none
  if learning_phase.truthy && ¬ pyInStrs learning_phase learningPhases then
    return (some ("Invalid learning phase: " ++ pyStrV learning_phase ++
      ". Must be one of " ++ pyRepr (Py.strs learningPhases)), user_profile)
  return (Option.none, user_profile)

/-- `preprocess_request_data` (coreStructure.py lines 202-255).
`copy.deepcopy` is the identity on the immutable model values. -/
def preprocess_request_data (user_profile lesson_request : Py) : Except PyErr (Py × Py) := do
  let pkvs ← (match user_profile with
    | .dict kvs => pure kvs
    | _ => throw PyErr.attributeError)
  let native_langs := pkvs.getD "nativeLanguages" Py.none
  let pkvs := match native_langs with
    | .str s => pkvs.set "nativeLanguages" (Py.listOf [.str s])
    | _ => pkvs
  let pkvs := if pkvs.hasKey "additionalLanguages" then pkvs
    else pkvs.set "additionalLanguages" (Py.listOf [])
  let rkvs ← (match lesson_request with
    | .dict kvs => pure kvs
    | _ => throw PyErr.attributeError)
  let target_lang := rkvs.getD "targetLanguage" Py.none
  let rkvs ← match target_lang with
    | .dict tkvs => do
      let rkvs := rkvs.set "targetLanguage" (tkvs.getD "language" (.str "Unknown"))
      let rkvs ← if tkvs.hasKey "reason" then do
          let rkvs := if rkvs.hasKey "contextualUse" then rkvs
            else rkvs.set "contextualUse" (Py.dictOf [])
          match rkvs.getD "contextualUse" Py.none with
          | .dict ckvs =>
            pure (rkvs.set "contextualUse"
              (Py.dict (ckvs.set "inspiration" (tkvs.getD "reason" Py.none))))
          | _ => throw PyErr.typeError
        else pure rkvs
      let rkvs ← if tkvs.hasKey "isSpanishSpecialty" then do
          let rkvs := if rkvs.hasKey "contextualUse" then rkvs
            else rkvs.set "contextualUse" (Py.dictOf [])
          match rkvs.getD "contextualUse" Py.none with
          | .dict ckvs =>
            pure (rkvs.set "contextualUse"
              (Py.dict (ckvs.set "isSpanishSpecialty" (tkvs.getD "isSpanishSpecialty" Py.none))))
          | _ => throw PyErr.typeError
        else pure rkvs
      pure rkvs
    | _ => pure rkvs
  let rkvs := if rkvs.hasKey "contextualUse" then rkvs
    else rkvs.set "contextualUse" (Py.dictOf [("type", .str "personal")])
  let rkvs ← if rkvs.hasKey "proficiencyLevel" then pure rkvs else do
      let placement_test := pkvs.getD "placementTest" (Py.dictOf [])
      let cefr_level ← pyGetE placement_test "cefrLevel" Py.none
      if cefr_level.truthy then pure (rkvs.set "proficiencyLevel" cefr_level)
      else pure (rkvs.set "proficiencyLevel" (.str "A1"))
  let rkvs := if rkvs.hasKey "topic" then rkvs
    else rkvs.set "topic" (.str "Basic Communication")
  pure (Py.dict pkvs, Py.dict rkvs)

/-- The API-Gateway event fields the handler reads: `httpMethod` is
`event.get('httpMethod')`, `path` is `event.get('path', '')`, and
`bodyJson` is the outcome of `json.loads(event.get('body', '{}'))` —
`Option.none` is the `JSONDecodeError` case, and an absent `body` key
yields `some` of the empty dict. -/
structure Event where
  httpMethod : Py
  path : Py
  bodyJson : Option Py

/-- An HTTP-style lambda response.  The body is kept structured; the
source `json.dumps`'s it at the HTTP boundary. -/
structure Response where
  statusCode : Nat
  headers : List (String × String)
  body : Py

/-- `get_cors_headers` (coreStructure.py lines 96-102). -/
def get_cors_headers : List (String × String) :=
  [("Access-Control-Allow-Origin", "*"),
   ("Access-Control-Allow-Methods", "GET, POST, OPTIONS"),
   ("Access-Control-Allow-Headers", "Content-Type, Authorization, X-Requested-With")]

/-- Modelled from the spec: `error_response` is called by
`lambda_handler` but defined nowhere under `src/` (it lives in a part
of the repository not packaged here).  Spec sections 6-7: a failure
surfaces as the envelope `\x7b success: false, error: string \x7d` with the
given client/server error status. -/
def error_response (statusCode : Nat) (message : String) : Response :=
  ⟨statusCode, get_cors_headers,
   Py.dictOf [("success", .bool false), ("error", .str message)]⟩

/-- Modelled from the spec: `success_response` is called by
`lambda_handler` but defined nowhere under `src/`.  Spec section 6: a
successful result is returned with a 200 status and the formatted
payload as the body. -/
def success_response (data : Py) : Response := ⟨200, get_cors_headers, data⟩

/-- Reading a Python local:  a name with no binding raises `NameError`. -/
def localsGet (ls : List (String × Py)) (n : String) : Except PyErr Py :=
  match ls.find? (fun kv => kv.1 = n) with
  | some kv => .ok kv.2
  | Option.none => .error (.nameError n)

/-- The `try` body of `lambda_handler` (coreStructure.py lines 24-74).
The locals list `ls` holds exactly the `Py`-valued locals the source
has assigned when routing begins; `processed_profile` and
`processed_request` are not among them because `preprocess_request_data`
is never invoked, so the four routing branches' lookups raise
`NameError`, exactly as in the source. -/
def lambda_handler_body (w : World) (store : CacheStore) (event : Event) :
    Except PyErr Response := do
  if Py.eqb event.httpMethod (.str "OPTIONS") then
    return ⟨200, get_cors_headers, Py.dictOf [("message", .str "CORS preflight handled")]⟩
  match event.bodyJson with
  | Option.none => return error_response 400 "Invalid JSON in request body"
  | some body => do
    let user_profile ← pyGetE body "userProfile" (Py.dictOf [])
    let lesson_request ← pyGetE body "lessonRequest" (Py.dictOf [])
    let vres ← validate_input user_profile lesson_request
    match vres.1 with
    | some validation_error => return error_response 400 validation_error
    | Option.none =>
      let path := event.path
      let ls : List (String × Py) :=
        [("body", body), ("user_profile", vres.2),
         ("lesson_request", lesson_request), ("validation_error", Py.none),
         ("path", path)]
      if Py.eqb path (.str "/api/ai/generate-scenario") then do
        let pp ← localsGet ls "processed_profile"
        let pr ← localsGet ls "processed_request"
        return success_response (generate_simulation_scenario pp pr)
      else if Py.eqb path (.str "/api/ai/generate-dialogue") then do
        let pp ← localsGet ls "processed_profile"
        let pr ← localsGet ls "processed_request"
        return success_response (generate_simulation_dialogue pp pr)
      else if Py.eqb path (.str "/api/ai/continue-dialogue") then do
        let pp ← localsGet ls "processed_profile"
        let pr ← localsGet ls "processed_request"
        return success_response (continue_simulation_dialogue pp pr)
      else do
        let pp ← localsGet ls "processed_profile"
        let pr ← localsGet ls "processed_request"
        let res ← process_lesson_request w store pp pr
        return success_response res.1

/-- `lambda_handler` (coreStructure.py lines 19-78): the top-level
`except Exception` turns any raise into the 500 error response. -/
def lambda_handler (w : World) (store : CacheStore) (event : Event) : Response :=
  match lambda_handler_body w store event with
  | .ok resp => resp
  | .error e => error_response 500 ("Internal server error: " ++ pyErrStr e)

/-- Unwrap a string-valued `Except` (used to compare cache key strings
without asserting anything about the digest itself). -/
def exStr : Except PyErr String → String
  | .ok s => s
  | .error _ => ""

/-- A fixed world for closed evaluations: clock at 0, empty cache
statistics, an available store and a generation service returning an
empty payload (never reached in the theorems that use it). -/
def trivialWorld : World := ⟨0, Py.none, true, fun _ _ => .ok Py.none⟩

/-- `v[k]` when `v` is a dict holding `k`; `Option.none` otherwise. -/
def pyGet1 (v : Py) (k : String) : Option Py :=
  match v with
  | .dict kvs => kvs.lookup k
  | _ => Option.none

/-- Two-level lookup `v[k1][k2]`. -/
def pyGet2 (v : Py) (k1 k2 : String) : Option Py :=
  (pyGet1 v k1).bind (fun w => pyGet1 w k2)

/-- The key list of a dict value (`[]` on non-dicts). -/
def dictKeys (v : Py) : List String :=
  match v with
  | .dict kvs => kvs.keys
  | _ => []

def PyDict.intVals : PyDict → List Int
  | .nil => []
  | .cons _ (.int n) tl => n :: tl.intVals
  | .cons _ _ tl => tl.intVals

/-- The integer values of a dict, in insertion order. -/
def intVals (v : Py) : List Int :=
  match v with
  | .dict kvs => kvs.intVals
  | _ => []

def sumIntVals (v : Py) : Int := (intVals v).sum

def getStrQ : Py → Option String
  | .str s => some s
  | _ => Option.none

/-- The strings of the list stored under key `k` (`[]` when absent or
not a list). -/
def strListD (v : Py) (k : String) : List String :=
  match pyGet1 v k with
  | some (.list xs) => xs.toList.filterMap getStrQ
  | _ => []

/-- A MoSCoW priority dict built from four string lists; every output
of `validate_moscow_priorities` has this shape. -/
def mkPriorityPy (a b c d : List String) : Py :=
  Py.dictOf [("mustHave", Py.strs a), ("shouldHave", Py.strs b),
             ("couldHave", Py.strs c), ("wontHave", Py.strs d)]

/-- The `.ok` branch of `calculate_priority_time_allocation` as a
function of the two counts it actually depends on. -/
def allocOfCounts (sh ch : Nat) : Py :=
  let mustHave := max 60 (80 - sh * 5)
  let shouldHave := min 30 (sh * 8)
  let couldHave := min 15 (ch * 3)
  let buffer := 10
  let total := mustHave + shouldHave + couldHave + buffer
  Py.dictOf [("mustHave", .int (roundHalfEven (mustHave * 100) total)),
             ("shouldHave", .int (roundHalfEven (shouldHave * 100) total)),
             ("couldHave", .int (roundHalfEven (couldHave * 100) total)),
             ("buffer", .int (roundHalfEven (buffer * 100) total))]

/-- Decidable check of the amended C1 property at one pair of counts. -/
def allocCheck (sh ch : Nat) : Bool :=
  decide (dictKeys (allocOfCounts sh ch) = ["mustHave", "shouldHave", "couldHave", "buffer"]) &&
  (intVals (allocOfCounts sh ch)).all (fun n => decide (0 ≤ n)) &&
  decide (99 ≤ sumIntVals (allocOfCounts sh ch)) &&
  decide (sumIntVals (allocOfCounts sh ch) ≤ 101)

/-- Whether the cleaning pass of `validate_moscow_priorities` leaves
all four category lists empty (the substitution trigger). -/
def cleanedAllEmpty (p : Py) : Bool :=
  match p with
  | .dict kvs =>
    (cleanCategory kvs "mustHave").isEmpty && (cleanCategory kvs "shouldHave").isEmpty &&
    (cleanCategory kvs "couldHave").isEmpty && (cleanCategory kvs "wontHave").isEmpty
  | _ => false

/-- Every entry is a non-empty string equal to its own strip. -/
@[reducible] def TrimmedNonempty (l : List String) : Prop := ∀ x ∈ l, pyStrip x = x ∧ x ≠ ""

/-- The PriorityProfile invariant of spec section 3: the four MoSCoW
keys, never all four lists empty, each list at most 10 trimmed
non-empty strings. -/
@[reducible] def PriorityProfileInv (v : Py) : Prop :=
  dictKeys v = ["mustHave", "shouldHave", "couldHave", "wontHave"] ∧
  ¬(strListD v "mustHave" = [] ∧ strListD v "shouldHave" = [] ∧
    strListD v "couldHave" = [] ∧ strListD v "wontHave" = []) ∧
  ∀ cat ∈ ["mustHave", "shouldHave", "couldHave", "wontHave"],
    (strListD v cat).length ≤ 10 ∧ TrimmedNonempty (strListD v cat)

/-- `strsOf? l = some ss` when `l` is exactly a list of strings. -/
def strsOf? : List Py → Option (List String)
  | [] => some []
  | .str s :: xs => (strsOf? xs).map (s :: ·)
  | _ :: _ => Option.none

def profileEnglish : Py :=
  Py.dictOf [("nativeLanguages", Py.strs ["English"]), ("nationality", .str "US"),
             ("learningStyle", .str "balanced")]

def profileFrench : Py :=
  Py.dictOf [("nativeLanguages", Py.strs ["French"]), ("nationality", .str "US"),
             ("learningStyle", .str "balanced")]

def requestSpanish : Py :=
  Py.dictOf [("targetLanguage", .str "Spanish"), ("topic", .str "Travel")]

/-- Scenario 2 of spec section 8: a structured target language. -/
def requestStructuredItalian : Py :=
  Py.dictOf [("targetLanguage",
    Py.dictOf [("language", .str "Italian"), ("reason", .str "loves opera")])]

/-- The flattened equivalent of `requestStructuredItalian` (with the
defaults `preprocess_request_data` fills in). -/
def requestFlatItalian : Py :=
  Py.dictOf [("targetLanguage", .str "Italian"),
             ("contextualUse", Py.dictOf [("inspiration", .str "loves opera")]),
             ("proficiencyLevel", .str "A1"), ("topic", .str "Basic Communication")]

/-- `profileEnglish` after `preprocess_request_data` (it appends the
`additionalLanguages` default). -/
def profileEnglishPrep : Py :=
  Py.dictOf [("nativeLanguages", Py.strs ["English"]), ("nationality", .str "US"),
             ("learningStyle", .str "balanced"), ("additionalLanguages", Py.listOf [])]

def eventStructuredItalian : Event :=
  ⟨.str "POST", .str "/api/generate-lesson",
   some (Py.dictOf [("userProfile", profileEnglish), ("lessonRequest", requestStructuredItalian)])⟩

def eventSpanish : Event :=
  ⟨.str "POST", .str "",
   some (Py.dictOf [("userProfile", profileEnglish), ("lessonRequest", requestSpanish)])⟩

/-- The priority input of the C1 counterexample: one mustHave item and
one shouldHave item. -/
def cexPriorityInput : Py :=
  Py.dictOf [("mustHave", Py.strs ["Core vocabulary"]),
             ("shouldHave", Py.strs ["Pronunciation practice"])]

def lessonX : Py := Py.dictOf [("lessonContent", .str "x")]

/-- A generated lesson payload for the C8 witness. -/
def lesson8 : Py := Py.dictOf [("lesson", .str "L")]

/-- A world whose cache writes fail and whose generation service
returns `lesson8`. -/
def w8 : World := ⟨0, Py.none, false, fun _ _ => .ok lesson8⟩

def vp8 : Py := validate_moscow_priorities (extract_moscow_priorities requestSpanish)

def h8 : String := exStr (generate_lesson_hash profileEnglish requestSpanish vp8)

def enh8 : PyDict :=
  match pyMergeE requestSpanish
      [("phasePriorities", vp8),
       ("priorityTimeAllocation", calculate_priority_time_allocation vp8)] with
  | .ok d => d
  | .error _ => .nil

theorem charToNat_inj {a b : Char} (h : a.toNat = b.toNat) : a = b := by
  apply Char.eq_of_val_eq
  apply UInt32.eq_of_val_eq
  exact Fin.ext h

theorem dropWhile_head?_false {α} (p : α → Bool) :
    ∀ (l : List α) (a : α), (l.dropWhile p).head? = some a → p a = false := by
  intro l
  induction l with
  | nil => intro a h; simp [List.dropWhile] at h
  | cons b bs ih =>
    intro a h
    cases hpb : p b with
    | true => rw [List.dropWhile_cons, hpb, if_pos rfl] at h; exact ih a h
    | false =>
      rw [List.dropWhile_cons, hpb] at h
      simp at h
      rw [← h]
      exact hpb

theorem dropWhile_eq_self_of_head {α} (p : α → Bool) (l : List α)
    (h : ∀ a, l.head? = some a → p a = false) : l.dropWhile p = l := by
  cases l with
  | nil => rfl
  | cons b bs =>
    rw [List.dropWhile_cons, h b (by simp)]
    simp

theorem dropWhile_getLast? {α} (p : α → Bool) :
    ∀ (l : List α), l.dropWhile p ≠ [] → (l.dropWhile p).getLast? = l.getLast? := by
  intro l
  induction l with
  | nil => intro h; simp [List.dropWhile] at h
  | cons b bs ih =>
    intro h
    cases hpb : p b with
    | true =>
      rw [List.dropWhile_cons, hpb, if_pos rfl] at h ⊢
      have hbs : bs ≠ [] := by
        intro hnil
        rw [hnil] at h
        simp [List.dropWhile] at h
      obtain ⟨c, cs, rfl⟩ := List.exists_cons_of_ne_nil hbs
      rw [ih h, List.getLast?_cons_cons]
    | false =>
      rw [List.dropWhile_cons, hpb]
      simp

theorem stripList_idem (l : List Char) : stripList (stripList l) = stripList l := by
  unfold stripList
  set p := isPySpace with hp
  set x := l.dropWhile p with hx
  set z := x.reverse.dropWhile p with hz
  have hzdrop : z.dropWhile p = z := by
    apply dropWhile_eq_self_of_head
    intro a ha
    exact dropWhile_head?_false p x.reverse a (hz ▸ ha)
  have hydrop : z.reverse.dropWhile p = z.reverse := by
    apply dropWhile_eq_self_of_head
    intro a ha
    rw [List.head?_reverse] at ha
    by_cases hznil : z = []
    · rw [hznil] at ha; simp at ha
    · rw [dropWhile_getLast? p x.reverse (hz ▸ hznil)] at ha
      rw [← List.head?_reverse, List.reverse_reverse] at ha
      exact dropWhile_head?_false p l a (hx ▸ ha)
  rw [hydrop, List.reverse_reverse, hzdrop]

theorem pyStrip_idem (s : String) : pyStrip (pyStrip s) = pyStrip s := by
  apply String.ext
  show stripList (String.data ⟨stripList s.data⟩) = stripList s.data
  rw [show String.data ⟨stripList s.data⟩ = stripList s.data from rfl]
  exact stripList_idem s.data

theorem charListLe_total : ∀ a b : List Char, charListLe a b = true ∨ charListLe b a = true := by
  intro a
  induction a with
  | nil => intro b; left; rfl
  | cons x xs ih =>
    intro b
    cases b with
    | nil => right; rfl
    | cons y ys =>
      by_cases hlt : x.toNat < y.toNat
      · left; simp [charListLe, hlt]
      · by_cases heq : x.toNat = y.toNat
        · rcases ih ys with h | h
          · left; simp [charListLe, hlt, heq, h]
          · right; simp [charListLe, heq.symm, Nat.lt_irrefl, h]
        · right
          have : y.toNat < x.toNat := by omega
          simp [charListLe, this]

theorem charListLe_trans : ∀ a b c : List Char,
    charListLe a b = true → charListLe b c = true → charListLe a c = true := by
  intro a
  induction a with
  | nil => intro b c _ _; rfl
  | cons x xs ih =>
    intro b c hab hbc
    cases b with
    | nil => simp [charListLe] at hab
    | cons y ys =>
      cases c with
      | nil => simp [charListLe] at hbc
      | cons z zs =>
        simp only [charListLe] at hab hbc ⊢
        by_cases hxy : x.toNat < y.toNat
        · by_cases hyz : y.toNat < z.toNat
          · simp [show x.toNat < z.toNat by omega]
          · by_cases hyz' : y.toNat = z.toNat
            · simp [show x.toNat < z.toNat by omega]
            · simp [hyz, hyz'] at hbc
        · by_cases hxy' : x.toNat = y.toNat
          · by_cases hyz : y.toNat < z.toNat
            · simp [show x.toNat < z.toNat by omega]
            · by_cases hyz' : y.toNat = z.toNat
              · have hxz : ¬ x.toNat < z.toNat := by omega
                have hxz' : x.toNat = z.toNat := by omega
                simp [hxy, hxy'] at hab
                simp [hyz, hyz'] at hbc
                simp [hxz, hxz']
                exact ih ys zs hab hbc
              · simp [hyz, hyz'] at hbc
          · simp [hxy, hxy'] at hab

theorem charListLe_antisymm : ∀ a b : List Char,
    charListLe a b = true → charListLe b a = true → a = b := by
  intro a
  induction a with
  | nil =>
    intro b _ hba
    cases b with
    | nil => rfl
    | cons y ys => simp [charListLe] at hba
  | cons x xs ih =>
    intro b hab hba
    cases b with
    | nil => simp [charListLe] at hab
    | cons y ys =>
      simp only [charListLe] at hab hba
      by_cases hxy : x.toNat < y.toNat
      · simp [show ¬ y.toNat < x.toNat by omega, show ¬ y.toNat = x.toNat by omega] at hba
      · by_cases hxy' : x.toNat = y.toNat
        · simp [hxy, hxy'] at hab
          simp [show ¬ y.toNat < x.toNat by omega, hxy'.symm] at hba
          rw [charToNat_inj hxy', ih ys hab hba]
        · simp [hxy, hxy'] at hab

theorem strLeB_total (a b : String) : strLeB a b = true ∨ strLeB b a = true :=
  charListLe_total a.data b.data

theorem strLeB_trans {a b c : String} (h1 : strLeB a b = true) (h2 : strLeB b c = true) :
    strLeB a c = true :=
  charListLe_trans a.data b.data c.data h1 h2

theorem strLeB_antisymm {a b : String} (h1 : strLeB a b = true) (h2 : strLeB b a = true) :
    a = b :=
  String.ext (charListLe_antisymm a.data b.data h1 h2)

instance : IsAntisymm String (fun a b => strLeB a b = true) := ⟨fun _ _ => strLeB_antisymm⟩

theorem mem_insortStr {x y : String} : ∀ {l : List String}, y ∈ insortStr x l → y = x ∨ y ∈ l := by
  intro l
  induction l with
  | nil => intro h; simp [insortStr] at h; exact Or.inl h
  | cons z zs ih =>
    intro h
    by_cases hle : strLeB x z = true
    · rw [show insortStr x (z :: zs) = x :: z :: zs by simp [insortStr, hle]] at h
      rcases List.mem_cons.mp h with h | h
      · exact Or.inl h
      · exact Or.inr h
    · rw [show insortStr x (z :: zs) = z :: insortStr x zs by simp [insortStr, hle]] at h
      rcases List.mem_cons.mp h with h | h
      · exact Or.inr (by simp [h])
      · rcases ih h with h' | h'
        · exact Or.inl h'
        · exact Or.inr (by simp [h'])

theorem insortStr_perm (x : String) : ∀ l : List String, List.Perm (insortStr x l) (x :: l) := by
  intro l
  induction l with
  | nil => simp [insortStr]
  | cons z zs ih =>
    by_cases hle : strLeB x z = true
    · simp [insortStr, hle]
    · rw [show insortStr x (z :: zs) = z :: insortStr x zs by simp [insortStr, hle]]
      exact List.Perm.trans (ih.cons z) (List.Perm.swap x z zs)

theorem sortStrs_perm : ∀ l : List String, List.Perm (sortStrs l) l := by
  intro l
  induction l with
  | nil => exact List.Perm.refl []
  | cons x xs ih =>
    exact List.Perm.trans (insortStr_perm x (sortStrs xs)) (ih.cons x)

theorem insortStr_sorted (x : String) : ∀ {l : List String},
    List.Sorted (fun a b => strLeB a b = true) l →
    List.Sorted (fun a b => strLeB a b = true) (insortStr x l) := by
  intro l
  induction l with
  | nil => intro _; simp [insortStr]
  | cons z zs ih =>
    intro hs
    rw [List.sorted_cons] at hs
    by_cases hle : strLeB x z = true
    · rw [show insortStr x (z :: zs) = x :: z :: zs by simp [insortStr, hle]]
      rw [List.sorted_cons]
      constructor
      · intro b hb
        rcases List.mem_cons.mp hb with rfl | hb
        · exact hle
        · exact strLeB_trans hle (hs.1 b hb)
      · rw [List.sorted_cons]; exact hs
    · rw [show insortStr x (z :: zs) = z :: insortStr x zs by simp [insortStr, hle]]
      rw [List.sorted_cons]
      constructor
      · intro b hb
        rcases mem_insortStr hb with rfl | hb'
        · rcases strLeB_total b z with h | h
          · exact absurd h hle
          · exact h
        · exact hs.1 b hb'
      · exact ih hs.2

theorem sortStrs_sorted : ∀ l : List String,
    List.Sorted (fun a b => strLeB a b = true) (sortStrs l) := by
  intro l
  induction l with
  | nil => simp [sortStrs]
  | cons x xs ih => exact insortStr_sorted x ih

theorem sortStrs_eq_of_perm {l1 l2 : List String} (h : List.Perm l1 l2) : sortStrs l1 = sortStrs l2 :=
  List.eq_of_perm_of_sorted
    ((sortStrs_perm l1).trans (h.trans (sortStrs_perm l2).symm))
    (sortStrs_sorted l1) (sortStrs_sorted l2)

theorem exBind_ok {α β : Type} (a : α) (f : α → Except PyErr β) :
    (Except.ok a : Except PyErr α) >>= f = f a := rfl

theorem exBind_err {α β : Type} (e : PyErr) (f : α → Except PyErr β) :
    (Except.error e : Except PyErr α) >>= f = .error e := rfl

theorem toList_ofList : ∀ l : List Py, PyList.toList (PyList.ofList l) = l := by
  intro l
  induction l with
  | nil => rfl
  | cons x xs ih => simp [PyList.ofList, PyList.toList, ih]

theorem allStrs_ofList : ∀ m : List Py, allStrs (PyList.ofList m) = strsOf? m := by
  intro m
  induction m with
  | nil => rfl
  | cons x xs ih =>
    cases x <;> simp [PyList.ofList, allStrs, strsOf?, ih]

theorem strsOf?_some : ∀ {m : List Py} {ss : List String},
    strsOf? m = some ss → m = ss.map Py.str := by
  intro m
  induction m with
  | nil => intro ss h; simp [strsOf?] at h; simp [← h]
  | cons x xs ih =>
    intro ss h
    cases x with
    | str s =>
      simp [strsOf?] at h
      obtain ⟨ts, hts, rfl⟩ := h
      simp [ih hts]
    | none => simp [strsOf?] at h
    | bool b => simp [strsOf?] at h
    | int n => simp [strsOf?] at h
    | list xs' => simp [strsOf?] at h
    | dict kvs => simp [strsOf?] at h

theorem strsOf?_isSome_iff : ∀ m : List Py,
    (strsOf? m).isSome = true ↔ ∀ x ∈ m, (getStrQ x).isSome = true := by
  intro m
  induction m with
  | nil => simp [strsOf?]
  | cons x xs ih =>
    cases x <;> simp [strsOf?, getStrQ, ih]

theorem filterMap_getStrQ_comp (l : List String) :
    List.filterMap (getStrQ ∘ Py.str) l = l := by
  rw [show getStrQ ∘ Py.str = some from funext fun s => rfl, List.filterMap_some]

theorem filterMap_getStrQ_map_str (ss : List String) :
    (ss.map Py.str).filterMap getStrQ = ss := by
  rw [List.filterMap_map, filterMap_getStrQ_comp]

theorem pySortedE_perm {m m' : List Py} (h : List.Perm m m') :
    pySortedE (Py.listOf m) = pySortedE (Py.listOf m') := by
  show (match allStrs (PyList.ofList m) with
        | some ss => Except.ok (Py.strs (sortStrs ss))
        | Option.none => Except.error PyErr.typeError) =
       (match allStrs (PyList.ofList m') with
        | some ss => Except.ok (Py.strs (sortStrs ss))
        | Option.none => Except.error PyErr.typeError)
  rw [allStrs_ofList, allStrs_ofList]
  cases hm : strsOf? m with
  | none =>
    cases hm' : strsOf? m' with
    | none => rfl
    | some ss' =>
      exfalso
      have h2 : (strsOf? m').isSome = true := by simp [hm']
      have h3 : ∀ x ∈ m, (getStrQ x).isSome = true := by
        intro x hx
        exact (strsOf?_isSome_iff m').mp h2 x (h.mem_iff.mp hx)
      have h4 : (strsOf? m).isSome = true := (strsOf?_isSome_iff m).mpr h3
      rw [hm] at h4
      simp at h4
  | some ss =>
    cases hm' : strsOf? m' with
    | none =>
      exfalso
      have h2 : (strsOf? m).isSome = true := by simp [hm]
      have h3 : ∀ x ∈ m', (getStrQ x).isSome = true := by
        intro x hx
        exact (strsOf?_isSome_iff m).mp h2 x (h.mem_iff.mpr hx)
      have h4 : (strsOf? m').isSome = true := (strsOf?_isSome_iff m').mpr h3
      rw [hm'] at h4
      simp at h4
    | some ss' =>
      have hss : ss = m.filterMap getStrQ := by
        rw [strsOf?_some hm, filterMap_getStrQ_map_str]
      have hss' : ss' = m'.filterMap getStrQ := by
        rw [strsOf?_some hm', filterMap_getStrQ_map_str]
      have hperm : List.Perm ss ss' := by
        rw [hss, hss']
        exact h.filterMap getStrQ
      show Except.ok (Py.strs (sortStrs ss)) = Except.ok (Py.strs (sortStrs ss'))
      rw [sortStrs_eq_of_perm hperm]

theorem cache_key_py_prio (p r : Py) (m s c : List Py) (wv : Py) :
    cache_key_py p r (Py.dictOf
      [("mustHave", Py.listOf m), ("shouldHave", Py.listOf s),
       ("couldHave", Py.listOf c), ("wontHave", wv)]) =
    (do
      let nativeLanguage ← pyGetE p "nativeLanguage" Py.none
      let nationality ← pyGetE p "nationality" Py.none
      let learningStyle ← pyGetE p "learningStyle" Py.none
      let additional ← pyGetE p "additionalLanguages" (Py.listOf [])
      let additionalSorted ← pySortedE additional
      let targetLanguage ← pyGetE r "targetLanguage" Py.none
      let contextualUse ← pyGetE r "contextualUse" Py.none
      let topic ← pyGetE r "topic" Py.none
      let proficiencyLevel ← pyGetE r "proficiencyLevel" (.str "beginner")
      let mhSorted ← pySortedE (Py.listOf m)
      let shSorted ← pySortedE (Py.listOf s)
      let chSorted ← pySortedE (Py.listOf c)
      pure (Py.dictOf
        [("nativeLanguage", nativeLanguage), ("nationality", nationality),
         ("learningStyle", learningStyle), ("additionalLanguages", additionalSorted),
         ("targetLanguage", targetLanguage), ("contextualUse", contextualUse),
         ("topic", topic), ("proficiencyLevel", proficiencyLevel),
         ("priorities", Py.dictOf
           [("mustHave", mhSorted), ("shouldHave", shSorted),
            ("couldHave", chSorted)])])) := rfl

theorem cache_key_py_perm (p r wv wv' : Py) {m m' s s' c c' : List Py}
    (hm : List.Perm m m') (hs : List.Perm s s') (hc : List.Perm c c') :
    cache_key_py p r (Py.dictOf
      [("mustHave", Py.listOf m), ("shouldHave", Py.listOf s),
       ("couldHave", Py.listOf c), ("wontHave", wv)]) =
    cache_key_py p r (Py.dictOf
      [("mustHave", Py.listOf m'), ("shouldHave", Py.listOf s'),
       ("couldHave", Py.listOf c'), ("wontHave", wv')]) := by
  rw [cache_key_py_prio, cache_key_py_prio,
      pySortedE_perm hm, pySortedE_perm hs, pySortedE_perm hc]

/-- C6. `deriveKey` (`generate_lesson_hash`) is pure — identical
triples give the identical fingerprint — and the fingerprint is
invariant both under permuting the entries of each of the mustHave,
shouldHave and couldHave lists and under an arbitrary change of
the wontHave entry (which is excluded from the canonical object). -/
theorem c6_derive_key_invariance (p r wv wv' : Py) (m m' s s' c c' : List Py)
    (hm : List.Perm m m') (hs : List.Perm s s') (hc : List.Perm c c') :
    (∀ pr : Py, generate_lesson_hash p r pr = generate_lesson_hash p r pr) ∧
    generate_lesson_hash p r (Py.dictOf
      [("mustHave", Py.listOf m), ("shouldHave", Py.listOf s),
       ("couldHave", Py.listOf c), ("wontHave", wv)]) =
    generate_lesson_hash p r (Py.dictOf
      [("mustHave", Py.listOf m'), ("shouldHave", Py.listOf s'),
       ("couldHave", Py.listOf c'), ("wontHave", wv')]) := by
  constructor
  · intro pr; rfl
  · unfold generate_lesson_hash cache_key_string
    rw [cache_key_py_perm p r wv wv' hm hs hc]

/-- Witness for C6: a concrete permutation of mustHave, identical
shouldHave/couldHave, and two different wontHave lists. -/
theorem c6_derive_key_invariance_witness :
    (∀ pr : Py, generate_lesson_hash profileEnglish requestSpanish pr =
      generate_lesson_hash profileEnglish requestSpanish pr) ∧
    generate_lesson_hash profileEnglish requestSpanish (Py.dictOf
      [("mustHave", Py.listOf [.str "b", .str "a"]),
       ("shouldHave", Py.listOf [.str "x"]),
       ("couldHave", Py.listOf []),
       ("wontHave", Py.strs ["w1"])]) =
    generate_lesson_hash profileEnglish requestSpanish (Py.dictOf
      [("mustHave", Py.listOf [.str "a", .str "b"]),
       ("shouldHave", Py.listOf [.str "x"]),
       ("couldHave", Py.listOf []),
       ("wontHave", Py.strs ["w2"])]) :=
  c6_derive_key_invariance profileEnglish requestSpanish
    (Py.strs ["w1"]) (Py.strs ["w2"])
    [.str "b", .str "a"] [.str "a", .str "b"]
    [.str "x"] [.str "x"] [] []
    (List.Perm.swap (Py.str "a") (Py.str "b") [])
    (List.Perm.refl _) (List.Perm.refl _)

/-- C2 (code bug).  The canonical object reads the singular
`nativeLanguage` profile key, which every validated profile lacks (the
schema's field is the plural `nativeLanguages`), so two profiles that
are identical except for their `nativeLanguages` value produce the
SAME fingerprint — the spec's claimed pair with differing fingerprints
does not exist for this field. -/
theorem c2_hash_ignores_native_languages :
    pyGet1 profileEnglish "nativeLanguages" = some (Py.strs ["English"]) ∧
    pyGet1 profileFrench "nativeLanguages" = some (Py.strs ["French"]) ∧
    (∀ k : String, k ≠ "nativeLanguages" → pyGet1 profileEnglish k = pyGet1 profileFrench k) ∧
    generate_lesson_hash profileEnglish requestSpanish defaultBalanced =
      generate_lesson_hash profileFrench requestSpanish defaultBalanced := by
  refine ⟨rfl, rfl, ?_, ?_⟩
  · intro k hk
    have hne : ¬ ("nativeLanguages" = k) := fun h => hk h.symm
    simp only [profileEnglish, profileFrench, pyGet1, Py.dictOf, PyDict.ofList, PyDict.lookup]
    rw [if_neg hne, if_neg hne]
  · unfold generate_lesson_hash cache_key_string
    rw [show cache_key_py profileEnglish requestSpanish defaultBalanced =
        cache_key_py profileFrench requestSpanish defaultBalanced from rfl]

/-- Witness for C2: the field-agreement hypothesis discharged at the
concrete key `nationality`. -/
theorem c2_hash_ignores_native_languages_witness :
    pyGet1 profileEnglish "nationality" = pyGet1 profileFrench "nationality" :=
  c2_hash_ignores_native_languages.2.2.1 "nationality" (by decide)

/-- C3 (code bug).  `preprocess_request_data` does flatten the
structured target language (folding the reason into
`contextualUse.inspiration`), and after it both the structured and the
already-flattened requests yield the same key — but the deployed
pipeline never invokes it: `lambda_handler` crashes with a `NameError`
(500) before any key derivation, and the raw structured request
canonicalises to a different cache key string than the flattened
form. -/
theorem c3_pipeline_never_normalizes :
    preprocess_request_data profileEnglish requestStructuredItalian =
      .ok (profileEnglishPrep, requestFlatItalian) ∧
    preprocess_request_data profileEnglish requestFlatItalian =
      .ok (profileEnglishPrep, requestFlatItalian) ∧
    exStr (cache_key_string profileEnglish requestStructuredItalian defaultBalanced) ≠
      exStr (cache_key_string profileEnglish requestFlatItalian defaultBalanced) ∧
    lambda_handler trivialWorld [] eventStructuredItalian =
      error_response 500 "Internal server error: name \x27processed_profile\x27 is not defined" :=
  ⟨rfl, rfl, by decide, rfl⟩

/-- C4.  After validation passes, every routing branch of
`lambda_handler` references the never-assigned locals
`processed_profile` / `processed_request` (`preprocess_request_data` is
never invoked), so a `NameError` is raised and the top-level handler
returns the 500 error response. -/
theorem c4_handler_name_error_500 (w : World) (store : CacheStore) (event : Event)
    (b up lr up' : Py)
    (hopt : Py.eqb event.httpMethod (.str "OPTIONS") = false)
    (hbody : event.bodyJson = some b)
    (hup : pyGetE b "userProfile" (Py.dictOf []) = .ok up)
    (hlr : pyGetE b "lessonRequest" (Py.dictOf []) = .ok lr)
    (hvalid : validate_input up lr = .ok (Option.none, up')) :
    lambda_handler w store event =
      error_response 500 "Internal server error: name \x27processed_profile\x27 is not defined" := by
  have hbodyE : lambda_handler_body w store event = .error (.nameError "processed_profile") := by
    unfold lambda_handler_body
    simp only [hopt, Bool.false_eq_true, if_false, hbody, hup, exBind_ok, hlr, hvalid]
    split
    · rfl
    · split
      · rfl
      · split <;> rfl
  unfold lambda_handler
  rw [hbodyE]
  rfl

/-- Witness for C4: a concrete valid POST event. -/
theorem c4_handler_name_error_500_witness :
    lambda_handler trivialWorld [] eventSpanish =
      error_response 500 "Internal server error: name \x27processed_profile\x27 is not defined" :=
  c4_handler_name_error_500 trivialWorld [] eventSpanish
    (Py.dictOf [("userProfile", profileEnglish), ("lessonRequest", requestSpanish)])
    profileEnglish requestSpanish profileEnglish rfl rfl rfl rfl rfl

theorem get_cached_lesson_snd (store : CacheStore) (now : Int) (h : String) :
    (get_cached_lesson store now h).2 = store := by
  unfold get_cached_lesson
  cases storeLookup store h with
  | none => rfl
  | some item =>
    cases item <;> try rfl
    case dict kvs =>
      dsimp only
      by_cases htr : (PyDict.getD kvs "createdAt" Py.none).truthy = true
      · rw [if_pos htr]
        repeat' split <;> try rfl
      · rw [if_neg htr]

/-- C7.  A physically present entry whose creation timestamp is more
than 24 hours (86400 s) before `now` is reported absent by
`get_cached_lesson`, and the read leaves the store unchanged. -/
theorem c7_cache_get_expired_absent (store : CacheStore) (now t : Int) (h : String)
    (kvs : PyDict) (s : String)
    (hfind : storeLookup store h = some (.dict kvs))
    (hcreated : kvs.getD "createdAt" Py.none = .str s)
    (hparse : parseIntStr s = some t)
    (hexp : now - t > 86400) :
    get_cached_lesson store now h = (Option.none, store) := by
  have hs : s ≠ "" := by
    intro he
    rw [he] at hparse
    simp [parseIntStr, parseDigits] at hparse
  have htr : Py.truthy (.str s) = true := by simp [Py.truthy, hs]
  unfold get_cached_lesson
  simp only [hfind, hcreated, htr, if_true, hparse]
  rw [if_pos hexp]

/-- Witness for C7: an entry created at time 0 read at time 100000. -/
theorem c7_cache_get_expired_absent_witness :
    get_cached_lesson
      [("h1", Py.dictOf [("createdAt", .str "0"), ("lessonContent", .str "L")])]
      100000 "h1" =
    (Option.none,
     [("h1", Py.dictOf [("createdAt", .str "0"), ("lessonContent", .str "L")])]) :=
  c7_cache_get_expired_absent _ 100000 0 "h1"
    (PyDict.ofList [("createdAt", .str "0"), ("lessonContent", .str "L")]) "0"
    rfl rfl rfl (by decide)

/-- C10.  An entry with no `createdAt` attribute skips the 24-hour
logical-expiry check entirely: `get_cached_lesson` returns it as a hit
with `metadata.cached = true` for every read time `now`. -/
theorem c10_missing_created_at_is_hit (store : CacheStore) (now : Int) (h : String)
    (kvs : PyDict)
    (hfind : storeLookup store h = some (.dict kvs))
    (hmiss : kvs.getD "createdAt" Py.none = Py.none) :
    get_cached_lesson store now h = (some (cachedLessonView kvs), store) ∧
    pyGet2 (cachedLessonView kvs) "metadata" "cached" = some (.bool true) := by
  constructor
  · unfold get_cached_lesson
    simp only [hfind, hmiss]
    rfl
  · rfl

/-- Witness for C10: an entry stored without `createdAt`, read at a
very late time, still comes back as a hit. -/
theorem c10_missing_created_at_is_hit_witness :
    get_cached_lesson [("h2", Py.dictOf [("lessonContent", .str "L")])] 99999999 "h2" =
      (some (cachedLessonView (PyDict.ofList [("lessonContent", .str "L")])),
       [("h2", Py.dictOf [("lessonContent", .str "L")])]) ∧
    pyGet2 (cachedLessonView (PyDict.ofList [("lessonContent", .str "L")]))
      "metadata" "cached" = some (.bool true) :=
  c10_missing_created_at_is_hit _ 99999999 "h2"
    (PyDict.ofList [("lessonContent", .str "L")]) rfl rfl

/-- C8.  When the cache write fails (`putAvail = false`), the
orchestrator still returns the freshly generated lesson formatted with
`from_cache = false`, the store is left unchanged, and `cache_lesson`
reports the failure as the boolean `false` instead of raising. -/
theorem c8_cache_write_failure_nonfatal (w : World) (store : CacheStore)
    (user_profile lesson_request : Py) (h : String) (enhanced : PyDict) (lesson : Py)
    (hput : w.putAvail = false)
    (hhash : generate_lesson_hash user_profile lesson_request
      (validate_moscow_priorities (extract_moscow_priorities lesson_request)) = .ok h)
    (hmiss : (get_cached_lesson store w.now h).1 = Option.none)
    (hmerge : pyMergeE lesson_request
      [("phasePriorities", validate_moscow_priorities (extract_moscow_priorities lesson_request)),
       ("priorityTimeAllocation", calculate_priority_time_allocation
         (validate_moscow_priorities (extract_moscow_priorities lesson_request)))] = .ok enhanced)
    (hgen : w.genAI user_profile (.dict enhanced) = .ok lesson) :
    process_lesson_request w store user_profile lesson_request =
      .ok (format_lesson_response w.stats lesson false, store) ∧
    cache_lesson w.putAvail w.now store h lesson user_profile lesson_request = (false, store) ∧
    (pyGet2 (format_lesson_response w.stats lesson false) "metadata" "cached" =
        some (.bool false) ∨
     pyGet1 (format_lesson_response w.stats lesson false) "success" = some (.bool false)) := by
  have hpair : get_cached_lesson store w.now h = (Option.none, store) :=
    Prod.ext hmiss (get_cached_lesson_snd store w.now h)
  refine ⟨?_, ?_, ?_⟩
  · unfold process_lesson_request
    simp only [hhash, exBind_ok, hpair, hmerge, hgen, hput]
    rfl
  · rw [hput]
    rfl
  · unfold format_lesson_response
    split
    · left; rfl
    · right; rfl

/-- Witness for C8: world `w8` with failing writes and a generation
service returning `lesson8`, on an empty store. -/
theorem c8_cache_write_failure_nonfatal_witness :
    process_lesson_request w8 [] profileEnglish requestSpanish =
      .ok (format_lesson_response Py.none lesson8 false, []) ∧
    cache_lesson w8.putAvail w8.now [] h8 lesson8 profileEnglish requestSpanish = (false, []) ∧
    (pyGet2 (format_lesson_response Py.none lesson8 false) "metadata" "cached" =
        some (.bool false) ∨
     pyGet1 (format_lesson_response Py.none lesson8 false) "success" = some (.bool false)) :=
  c8_cache_write_failure_nonfatal w8 [] profileEnglish requestSpanish h8 enh8 lesson8
    rfl rfl rfl rfl rfl

/-- C9 counterexample.  A successful response does NOT nest the
metadata object inside `data`: on a minimal lesson payload the
response is successful, its `data` member has no `metadata` key, and
the `moscowEnabled: true` metadata sits at the top level instead. -/
theorem c9_metadata_not_nested_counterexample :
    pyGet1 (format_lesson_response Py.none lessonX false) "success" = some (.bool true) ∧
    pyGet2 (format_lesson_response Py.none lessonX false) "data" "metadata" = Option.none ∧
    pyGet2 (format_lesson_response Py.none lessonX false) "metadata" "moscowEnabled" =
      some (.bool true) :=
  ⟨rfl, rfl, rfl⟩

/-- C9 (amended).  Every successful response is the envelope
`\x7b success: true, data: <lesson payload>, metadata: \x7b cached,
timestamp, generatedWith, priorityFocus, phaseOptimized,
moscowEnabled: true [, cacheStats on hits] \x7d \x7d` with the metadata
object a top-level sibling of `data`, not nested inside it. -/
theorem c9_envelope_shape (stats lesson_data : Py) (fc : Bool)
    (hsucc : pyGet1 (format_lesson_response stats lesson_data fc) "success" =
      some (.bool true)) :
    ∃ ts gw pf po : Py,
      format_lesson_response stats lesson_data fc = Py.dictOf
        [("success", .bool true), ("data", lesson_data),
         ("metadata", Py.dictOf
           ([("cached", .bool fc), ("timestamp", ts), ("generatedWith", gw),
             ("priorityFocus", pf), ("phaseOptimized", po),
             ("moscowEnabled", .bool true)] ++
            if fc then [("cacheStats", stats)] else []))] := by
  have hcases :
      (∃ ts gw pf po : Py,
        format_lesson_response stats lesson_data fc = Py.dictOf
          [("success", .bool true), ("data", lesson_data),
           ("metadata", Py.dictOf
             ([("cached", .bool fc), ("timestamp", ts), ("generatedWith", gw),
               ("priorityFocus", pf), ("phaseOptimized", po),
               ("moscowEnabled", .bool true)] ++
              if fc then [("cacheStats", stats)] else []))]) ∨
      format_lesson_response stats lesson_data fc = Py.dictOf
        [("success", .bool false), ("error", .str "Failed to format lesson response"),
         ("data", lesson_data)] := by
    unfold format_lesson_response
    split
    · left; exact ⟨_, _, _, _, rfl⟩
    · right; rfl
  rcases hcases with hok | herr
  · exact hok
  · rw [herr] at hsucc
    simp [pyGet1, Py.dictOf, PyDict.ofList, PyDict.lookup] at hsucc

/-- Witness for C9: the success hypothesis discharged on a concrete
cache-hit formatting. -/
theorem c9_envelope_shape_witness :
    pyGet1 (format_lesson_response Py.none lessonX true) "success" = some (.bool true) ∧
    ∃ ts gw pf po : Py,
      format_lesson_response Py.none lessonX true = Py.dictOf
        [("success", .bool true), ("data", lessonX),
         ("metadata", Py.dictOf
           ([("cached", .bool true), ("timestamp", ts), ("generatedWith", gw),
             ("priorityFocus", pf), ("phaseOptimized", po),
             ("moscowEnabled", .bool true)] ++
            if true then [("cacheStats", Py.none)] else []))] :=
  ⟨rfl, c9_envelope_shape Py.none lessonX true rfl⟩

theorem pyList_length_ofList : ∀ l : List Py, (PyList.ofList l).length = l.length := by
  intro l
  induction l with
  | nil => rfl
  | cons x xs ih => simp [PyList.ofList, PyList.length, ih]; omega

theorem pyLenE_strs (l : List String) : pyLenE (Py.strs l) = .ok l.length := by
  simp [pyLenE, Py.strs, Py.listOf, pyList_length_ofList]

theorem calc_mk (A B C D : List String) :
    calculate_priority_time_allocation (mkPriorityPy A B C D) =
      allocOfCounts B.length C.length := by
  unfold calculate_priority_time_allocation
  simp only
    [show pyGetE (mkPriorityPy A B C D) "mustHave" (Py.listOf []) = .ok (Py.strs A) from rfl,
     show pyGetE (mkPriorityPy A B C D) "shouldHave" (Py.listOf []) = .ok (Py.strs B) from rfl,
     show pyGetE (mkPriorityPy A B C D) "couldHave" (Py.listOf []) = .ok (Py.strs C) from rfl,
     exBind_ok, pyLenE_strs]
  rfl

theorem validate_dict_eq (kvs : PyDict) :
    validate_moscow_priorities (Py.dict kvs) =
      if (cleanCategory kvs "mustHave").length + (cleanCategory kvs "shouldHave").length +
         (cleanCategory kvs "couldHave").length + (cleanCategory kvs "wontHave").length = 0
      then defaultBalanced
      else mkPriorityPy (cleanCategory kvs "mustHave") (cleanCategory kvs "shouldHave")
        (cleanCategory kvs "couldHave") (cleanCategory kvs "wontHave") := rfl

theorem cleanCategory_len (kvs : PyDict) (cat : String) :
    (cleanCategory kvs cat).length ≤ 10 := by
  unfold cleanCategory
  split
  · unfold cleanPriorityItems
    rw [List.length_take]
    exact min_le_left _ _
  · simp

theorem validate_shape (q : Py) : ∃ A B C D : List String,
    validate_moscow_priorities q = mkPriorityPy A B C D ∧
    A.length ≤ 10 ∧ B.length ≤ 10 ∧ C.length ≤ 10 ∧ D.length ≤ 10 := by
  cases q with
  | dict kvs =>
    rw [validate_dict_eq kvs]
    by_cases h0 : (cleanCategory kvs "mustHave").length + (cleanCategory kvs "shouldHave").length +
        (cleanCategory kvs "couldHave").length + (cleanCategory kvs "wontHave").length = 0
    · rw [if_pos h0]
      exact ⟨["Core vocabulary", "Basic grammar"], ["Pronunciation practice", "Cultural context"],
        [], [], rfl, by decide, by decide, by decide, by decide⟩
    · rw [if_neg h0]
      exact ⟨_, _, _, _, rfl, cleanCategory_len _ _, cleanCategory_len _ _,
        cleanCategory_len _ _, cleanCategory_len _ _⟩
  | none =>
    exact ⟨["Core vocabulary"], ["Basic grammar"], [], [], rfl, by decide, by decide, by decide, by decide⟩
  | bool b =>
    exact ⟨["Core vocabulary"], ["Basic grammar"], [], [], rfl, by decide, by decide, by decide, by decide⟩
  | int n =>
    exact ⟨["Core vocabulary"], ["Basic grammar"], [], [], rfl, by decide, by decide, by decide, by decide⟩
  | str s =>
    exact ⟨["Core vocabulary"], ["Basic grammar"], [], [], rfl, by decide, by decide, by decide, by decide⟩
  | list xs =>
    exact ⟨["Core vocabulary"], ["Basic grammar"], [], [], rfl, by decide, by decide, by decide, by decide⟩

theorem allocCheck_all : ∀ sh, sh < 11 → ∀ ch, ch < 11 → allocCheck sh ch = true := by decide

/-- C1 counterexample.  One shouldHave item and no couldHave items: a
validated profile on which the computed allocation sums to 101, not
100 (the source rounds the four rescaled weights independently). -/
theorem c1_sum_not_exactly_100_counterexample :
    sumIntVals (calculate_priority_time_allocation
      (validate_moscow_priorities cexPriorityInput)) = 101 ∧
    sumIntVals (calculate_priority_time_allocation
      (validate_moscow_priorities cexPriorityInput)) ≠ 100 := by
  decide

/-- C1 (amended).  For every validated profile the allocation has
exactly the four keys mustHave, shouldHave, couldHave, buffer with
non-negative integer values, and the values sum to a total in
[99, 101] — not always exactly 100: the four roundings can drift the
total by one in either direction. -/
theorem c1_time_allocation_amended (q : Py) :
    dictKeys (calculate_priority_time_allocation (validate_moscow_priorities q)) =
      ["mustHave", "shouldHave", "couldHave", "buffer"] ∧
    (∀ n ∈ intVals (calculate_priority_time_allocation (validate_moscow_priorities q)),
      0 ≤ n) ∧
    99 ≤ sumIntVals (calculate_priority_time_allocation (validate_moscow_priorities q)) ∧
    sumIntVals (calculate_priority_time_allocation (validate_moscow_priorities q)) ≤ 101 := by
  obtain ⟨A, B, C, D, hq, hA, hB, hC, hD⟩ := validate_shape q
  rw [hq, calc_mk]
  have h := allocCheck_all B.length (by omega) C.length (by omega)
  unfold allocCheck at h
  simp only [Bool.and_eq_true, decide_eq_true_eq, List.all_eq_true] at h
  exact ⟨h.1.1.1, fun n hn => h.1.1.2 n hn, h.1.2, h.2⟩

theorem cleanPriorityItems_trimmed (xs : PyList) : TrimmedNonempty (cleanPriorityItems xs) := by
  intro x hx
  have hx' := List.take_subset 10 _ hx
  rw [List.mem_filterMap] at hx'
  obtain ⟨item, hmem, hf⟩ := hx'
  rcases item with _ | b | n | s | xs2 | kvs2 <;> simp at hf
  obtain ⟨hne, rfl⟩ := hf
  exact ⟨pyStrip_idem s, hne⟩

theorem cleanCategory_trimmed (kvs : PyDict) (cat : String) :
    TrimmedNonempty (cleanCategory kvs cat) := by
  unfold cleanCategory
  split
  · exact cleanPriorityItems_trimmed _
  · intro x hx; simp at hx

theorem strListD_mk_mustHave (A B C D : List String) :
    strListD (mkPriorityPy A B C D) "mustHave" = A := by
  simp [strListD, pyGet1, mkPriorityPy, Py.dictOf, PyDict.ofList, PyDict.lookup,
    Py.strs, Py.listOf, toList_ofList, filterMap_getStrQ_map_str, filterMap_getStrQ_comp]

theorem strListD_mk_shouldHave (A B C D : List String) :
    strListD (mkPriorityPy A B C D) "shouldHave" = B := by
  simp [strListD, pyGet1, mkPriorityPy, Py.dictOf, PyDict.ofList, PyDict.lookup,
    Py.strs, Py.listOf, toList_ofList, filterMap_getStrQ_map_str, filterMap_getStrQ_comp]

theorem strListD_mk_couldHave (A B C D : List String) :
    strListD (mkPriorityPy A B C D) "couldHave" = C := by
  simp [strListD, pyGet1, mkPriorityPy, Py.dictOf, PyDict.ofList, PyDict.lookup,
    Py.strs, Py.listOf, toList_ofList, filterMap_getStrQ_map_str, filterMap_getStrQ_comp]

theorem strListD_mk_wontHave (A B C D : List String) :
    strListD (mkPriorityPy A B C D) "wontHave" = D := by
  simp [strListD, pyGet1, mkPriorityPy, Py.dictOf, PyDict.ofList, PyDict.lookup,
    Py.strs, Py.listOf, toList_ofList, filterMap_getStrQ_map_str, filterMap_getStrQ_comp]

/-- C5.  On every input, `validate_moscow_priorities` yields a profile
satisfying the PriorityProfile invariant (four MoSCoW keys, never all
four lists empty, each list at most 10 trimmed non-empty strings), and
whenever cleaning leaves all four lists empty the default balanced
profile is substituted. -/
theorem c5_validate_priorities_invariant (p : Py) :
    PriorityProfileInv (validate_moscow_priorities p) ∧
    (cleanedAllEmpty p = true → validate_moscow_priorities p = defaultBalanced) := by
  constructor
  · cases p with
    | dict kvs =>
      rw [validate_dict_eq kvs]
      by_cases h0 : (cleanCategory kvs "mustHave").length + (cleanCategory kvs "shouldHave").length +
          (cleanCategory kvs "couldHave").length + (cleanCategory kvs "wontHave").length = 0
      · rw [if_pos h0]
        decide
      · rw [if_neg h0]
        refine ⟨rfl, ?_, ?_⟩
        · rw [strListD_mk_mustHave, strListD_mk_shouldHave, strListD_mk_couldHave,
            strListD_mk_wontHave]
          rintro ⟨ha, hb, hc, hd⟩
          exact h0 (by simp [ha, hb, hc, hd])
        · intro cat hcat
          fin_cases hcat
          · rw [strListD_mk_mustHave]
            exact ⟨cleanCategory_len _ _, cleanCategory_trimmed _ _⟩
          · rw [strListD_mk_shouldHave]
            exact ⟨cleanCategory_len _ _, cleanCategory_trimmed _ _⟩
          · rw [strListD_mk_couldHave]
            exact ⟨cleanCategory_len _ _, cleanCategory_trimmed _ _⟩
          · rw [strListD_mk_wontHave]
            exact ⟨cleanCategory_len _ _, cleanCategory_trimmed _ _⟩
    | none => decide
    | bool b => cases b <;> decide
    | int n =>
      show PriorityProfileInv minimalDefaultPriorities
      decide
    | str s =>
      show PriorityProfileInv minimalDefaultPriorities
      decide
    | list xs =>
      show PriorityProfileInv minimalDefaultPriorities
      decide
  · intro hall
    cases p with
    | dict kvs =>
      unfold cleanedAllEmpty at hall
      simp only [Bool.and_eq_true, List.isEmpty_iff] at hall
      obtain ⟨⟨⟨h1, h2⟩, h3⟩, h4⟩ := hall
      rw [validate_dict_eq kvs, if_pos (by simp [h1, h2, h3, h4])]
    | none => simp [cleanedAllEmpty] at hall
    | bool b => simp [cleanedAllEmpty] at hall
    | int n => simp [cleanedAllEmpty] at hall
    | str s => simp [cleanedAllEmpty] at hall
    | list xs => simp [cleanedAllEmpty] at hall

/-- Witness for C5: the empty request cleans to four empty lists and
the default balanced profile is substituted, satisfying the
invariant. -/
theorem c5_validate_priorities_invariant_witness :
    PriorityProfileInv (validate_moscow_priorities (Py.dictOf [])) ∧
    validate_moscow_priorities (Py.dictOf []) = defaultBalanced :=
  ⟨(c5_validate_priorities_invariant (Py.dictOf [])).1,
   (c5_validate_priorities_invariant (Py.dictOf [])).2 rfl⟩
